import Mathlib

/-!
Shallow embedding of the AI_TRPG repository core (Character, Enemy,
GameSession, GameService, AIService) and verification of the frozen
claims about it.  Python integers are modelled as `Int`, Python lists
as `List`, Python dicts as association lists with first-match lookup
and in-place update, and Python exceptions as `Except` results whose
error value carries the state at the moment of the raise.
-/

namespace AiTrpg

/-- Python dynamic value, used where the source treats AI-provided JSON
dynamically (for example entries of `state_changes.new_enemies`). -/
inductive PyVal : Type where
  | str (s : String)
  | int (n : Int)
  | bool (b : Bool)
  | list (xs : List PyVal)
  | dict (kvs : List (String × PyVal))
  | none
deriving Repr

/-- Python `str(v)` as used on `item["id"]` during enemy-list
sanitization: a string stays itself, other scalars render; containers
get a fixed rendering stand-in (never exercised by the claims). -/
def pyToStr : PyVal → String
  | .str s => s
  | .int n => toString n
  | .bool b => if b then "True" else "False"
  | .none => "None"
  | .list _ => "[...]"
  | .dict _ => "..."

/-- First-match association-list lookup, modelling `d.get(k)` on a
Python dict rendered as an insertion-ordered key/value list. -/
def dictGet? {α : Type} (kvs : List (String × α)) (k : String) : Option α :=
  match kvs with
  | [] => Option.none
  | (k0, v0) :: rest => if k0 = k then some v0 else dictGet? rest k

/-- Python `d.get(k, dflt)`. -/
def dictGetD {α : Type} (kvs : List (String × α)) (k : String) (dflt : α) : α :=
  (dictGet? kvs k).getD dflt

/-- Python `d[k] = v`: replace the first entry with key `k`, or append
a new entry at the end (dict insertion order). -/
def dictSet {α : Type} (kvs : List (String × α)) (k : String) (v : α) :
    List (String × α) :=
  match kvs with
  | [] => [(k, v)]
  | (k0, v0) :: rest =>
      if k0 = k then (k, v) :: rest else (k0, v0) :: dictSet rest k v

/-- Python `d.pop(k)` (drop the first entry with key `k`). -/
def dictPop {α : Type} (kvs : List (String × α)) (k : String) :
    List (String × α) :=
  match kvs with
  | [] => []
  | (k0, v0) :: rest =>
      if k0 = k then rest else (k0, v0) :: dictPop rest k

/-- Python exceptions that the embedded code can raise. -/
inductive PyErr : Type where
  | attributeError
  | typeError
  | aiConnection
  | gameError
  | sessionNotFound
deriving Repr, DecidableEq

/-- One equipment slot entry, `{'name': ..., 'bonuses': ...}` from
`Character.equip`. -/
structure EquipEntry where
  name : String
  bonuses : List (String × Int)
deriving Repr, DecidableEq

/-- The `Character` data model (src/game/models/character.py), restricted
to the fields the claims touch.  `class` is a Python keyword, so the
source names the attribute `class_`. -/
structure Character where
  name : String
  class_ : String
  baseStats : List (String × Int)
  skills : List (String × Int)
  level : Int
  xp : Int
  statPoints : Int
  skillPoints : Int
  activeQuests : List String
  completedQuests : List String
  inventory : List String
  gold : Int
  equipment : List (String × EquipEntry)
  maxHp : Int
  hp : Int
  maxMp : Int
  mp : Int
deriving Repr, DecidableEq

/-- The `while self.xp >= self.xp_to_next_level` loop of
`Character.add_xp`, with `xp_to_next_level = level * 100`.  Terminates
for every integer state exactly as the Python loop does: while the
level is non-positive the level climbs, and once it is positive the xp
strictly decreases by at least 100 per iteration. -/
def addXpLoop (level xp statPoints skillPoints : Int) (leveledUp : Bool) :
    Int × Int × Int × Int × Bool :=
  if level * 100 ≤ xp then
    addXpLoop (level + 1) (xp - level * 100) (statPoints + 1) (skillPoints + 5) true
  else
    (level, xp, statPoints, skillPoints, leveledUp)
termination_by ((1 - level).toNat, xp.toNat)
decreasing_by
  rcases le_or_lt level 0 with h | h
  · exact Prod.Lex.left _ _ (by omega)
  · have h1 : (1 - (level + 1)).toNat = (1 - level).toNat := by omega
    rw [h1]
    exact Prod.Lex.right _ (by omega)

/-- `Character.add_xp`: add the amount, then run the level-up loop;
each level gained grants +1 stat point and +5 skill points.  Returns
the updated character and the `leveled_up` flag. -/
def Character.addXp (c : Character) (amount : Int) : Character × Bool :=
  match addXpLoop c.level (c.xp + amount) c.statPoints c.skillPoints false with
  | (lv, x, sp, kp, up) =>
      ({ c with level := lv, xp := x, statPoints := sp, skillPoints := kp }, up)

/-- `Character.take_damage`: HP never drops below 0. -/
def Character.takeDamage (c : Character) (amount : Int) : Character :=
  { c with hp := max 0 (c.hp - amount) }

/-- `Character.heal_hp`: HP never exceeds `max_hp`. -/
def Character.healHp (c : Character) (amount : Int) : Character :=
  { c with hp := min c.maxHp (c.hp + amount) }

/-- `Character.spend_mp`: spends only when enough MP is available;
returns whether the spend happened. -/
def Character.spendMp (c : Character) (amount : Int) : Character × Bool :=
  if amount ≤ c.mp then ({ c with mp := c.mp - amount }, true) else (c, false)

/-- `Character.recover_mp`: MP never exceeds `max_mp`. -/
def Character.recoverMp (c : Character) (amount : Int) : Character :=
  { c with mp := min c.maxMp (c.mp + amount) }

/-- `Character.add_item`: appends only when the name is not already in
the inventory. -/
def Character.addItem (c : Character) (itemName : String) : Character :=
  if itemName ∈ c.inventory then c
  else { c with inventory := c.inventory ++ [itemName] }

/-- `Character.remove_item`: `list.remove` drops the first occurrence;
returns whether anything was removed. -/
def Character.removeItem (c : Character) (itemName : String) : Character × Bool :=
  if itemName ∈ c.inventory then
    ({ c with inventory := c.inventory.erase itemName }, true)
  else (c, false)

/-- `Character.equip`: take the item out of the inventory if present,
return any previously equipped item of that slot to the inventory, and
set the slot. -/
def Character.equip (c : Character) (itemName slot : String)
    (bonuses : List (String × Int)) : Character :=
  let inv1 := if itemName ∈ c.inventory then c.inventory.erase itemName
              else c.inventory
  let inv2 := match dictGet? c.equipment slot with
              | some old => inv1 ++ [old.name]
              | Option.none => inv1
  { c with inventory := inv2,
           equipment := dictSet c.equipment slot ⟨itemName, bonuses⟩ }

/-- `Character.unequip`: pop the slot and return its item to the
inventory. -/
def Character.unequip (c : Character) (slot : String) : Character × Bool :=
  match dictGet? c.equipment slot with
  | some entry =>
      ({ c with equipment := dictPop c.equipment slot,
                inventory := c.inventory ++ [entry.name] }, true)
  | Option.none => (c, false)

/-- `Character.start_quest`. -/
def Character.startQuest (c : Character) (questId : String) : Character :=
  if questId ∉ c.activeQuests ∧ questId ∉ c.completedQuests then
    { c with activeQuests := c.activeQuests ++ [questId] }
  else c

/-- `Character.complete_quest`. -/
def Character.completeQuest (c : Character) (questId : String) : Character :=
  if questId ∈ c.activeQuests then
    let c := { c with activeQuests := c.activeQuests.erase questId }
    if questId ∉ c.completedQuests then
      { c with completedQuests := c.completedQuests ++ [questId] }
    else c
  else c

/-- The `Character.stats` property: base stats plus equipment bonuses,
added only to stats already present. -/
def Character.statsProp (c : Character) : List (String × Int) :=
  c.equipment.foldl
    (fun acc kv =>
      kv.2.bonuses.foldl
        (fun a b => a.map (fun p => if p.1 = b.1 then (p.1, p.2 + b.2) else p))
        acc)
    c.baseStats

/-- The `Character.defense` property: `stats.get("CON", 10) // 2`
(Python floor division). -/
def Character.defense (c : Character) : Int :=
  Int.fdiv (dictGetD c.statsProp "CON" 10) 2

/-- Python truthiness for the dynamic values the embedded code tests. -/
def pyTruthy : PyVal → Bool
  | .str s => s ≠ ""
  | .int n => n ≠ 0
  | .bool b => b
  | .list xs => !xs.isEmpty
  | .dict kvs => !kvs.isEmpty
  | .none => false

/-- Reward table of an enemy template, with the defaults the source
applies through `rewards.get("xp", 0)` and friends. -/
structure Rewards where
  xp : Int := 0
  gold : Int := 0
  items : List String := []
deriving Repr, DecidableEq

/-- Static enemy template (an entry of `world_data["enemies"]`), the
`base_data` consumed by `Enemy.__init__`. -/
structure EnemyTemplate where
  id : Option String := Option.none
  name : Option String := Option.none
  hp : Int := 20
  stats : List (String × Int) := []
  rewards : Rewards := {}
deriving Repr

/-- The `Enemy` data model (src/game/models/enemy.py).  Its attributes
are `enemy_id`, `instance_id`, `name`, `max_hp`, `hp`, `stats`,
`abilities`, `status_effects`, `rewards` — there is no attribute named
`id`. -/
structure Enemy where
  enemyId : String
  instanceId : String
  name : String
  maxHp : Int
  hp : Int
  stats : List (String × Int)
  statusEffects : List String
  rewards : Rewards
deriving Repr, DecidableEq

/-- `Enemy.__init__`: defaults from `base_data.get`.  The fresh
`uuid.uuid4()` instance id is modelled as a caller-supplied string; no
claim depends on its value. -/
def Enemy.ofTemplate (t : EnemyTemplate) (instanceId : String) : Enemy :=
  { enemyId := t.id.getD "unknown_enemy"
    instanceId := instanceId
    name := t.name.getD "名無しの魔物"
    maxHp := t.hp
    hp := t.hp
    stats := t.stats
    statusEffects := []
    rewards := t.rewards }

/-- `Enemy.attack_power`: `stats.get("STR", 10)`. -/
def Enemy.attackPower (e : Enemy) : Int := dictGetD e.stats "STR" 10

/-- The Python attribute access `e.id` performed by
`GameService.proceed_game`.  `Enemy` defines `enemy_id` and
`instance_id` but no attribute `id`, so the access raises
`AttributeError` on every `Enemy` instance. -/
def Enemy.attrId (_ : Enemy) : Except PyErr String := .error .attributeError

/-- The set comprehension over an enemy list evaluating `e.id` on each
element: succeeds (with the empty list) only when the list is empty. -/
def pyEnemyIds (es : List Enemy) : Except PyErr (List String) :=
  es.mapM Enemy.attrId

/-- A location requirement for an item-gated or quest-gated transition,
from `location["requirements"]`. -/
structure QuestReq where
  id : Option String := Option.none
  status : Option String := Option.none
deriving Repr

structure Requirements where
  item : Option String := Option.none
  consume : Bool := false
  quest : Option QuestReq := Option.none
deriving Repr

/-- A `location["on_enter"]` event record. -/
structure LocEvent where
  eventId : Option String := Option.none
  once : Bool := true
  narrative : Option String := Option.none
  type : Option String := Option.none
  damage : Int := 0
  enemies : List String := []
deriving Repr

structure Location where
  name : Option String := Option.none
  requirements : Option Requirements := Option.none
  onEnter : Option LocEvent := Option.none
  npcs : List String := []
deriving Repr

structure ItemData where
  consumable : Bool := false
  equipmentType : Option String := Option.none
  statsBonus : List (String × Int) := []
deriving Repr

structure QuestData where
  title : Option String := Option.none
deriving Repr

structure NpcData where
  name : String := ""
  questTriggers : Option (List (String × String)) := Option.none
deriving Repr

/-- Class definition entry from
`world_data["creation_options"]["classes"]`, with the skill list used
by `Character.check_new_skills`. -/
structure SkillDef where
  name : String
  level : Int := 1
deriving Repr

structure ClassData where
  name : String
  skills : List SkillDef := []
deriving Repr

/-- The static world data the services look up (already resolved by
`world_data_loader.get_world`). -/
structure WorldData where
  locations : List (String × Location) := []
  enemies : List (String × EnemyTemplate) := []
  items : List (String × ItemData) := []
  quests : List (String × QuestData) := []
  npcs : List (String × NpcData) := []
  classes : List ClassData := []
deriving Repr

/-- `state_changes.combat` from the AI response. -/
structure CombatUpdate where
  status : Option String := Option.none
  enemies : List String := []
deriving Repr

/-- One entry of `state_changes.enemy_actions`. -/
structure EnemyAction where
  enemyId : Option String := Option.none
  type : Option String := Option.none
deriving Repr

/-- The `state_changes` effect bundle of an AI response.  A field is
`some` exactly when the corresponding key is present in the dict.
`new_enemies` and `npc_updates` are kept dynamic because the source
sanitizes or type-checks their shape at run time. -/
structure StateChanges where
  xpGain : Option Int := Option.none
  goldChange : Option Int := Option.none
  hpChange : Option Int := Option.none
  mpChange : Option Int := Option.none
  newItems : Option (List String) := Option.none
  questUpdates : Option (List (String × String)) := Option.none
  npcUpdates : Option PyVal := Option.none
  enemyActions : Option (List EnemyAction) := Option.none
  combat : Option CombatUpdate := Option.none
  newEnemies : Option PyVal := Option.none
  currentLocationId : Option String := Option.none
  locationChange : Option String := Option.none
  levelUp : Option Int := Option.none
  newSkills : Option (List String) := Option.none
deriving Repr

/-- Truthiness of the `state_changes` dict: it has at least one key. -/
def StateChanges.truthy (ch : StateChanges) : Bool :=
  ch.xpGain.isSome || ch.goldChange.isSome || ch.hpChange.isSome ||
  ch.mpChange.isSome || ch.newItems.isSome || ch.questUpdates.isSome ||
  ch.npcUpdates.isSome || ch.enemyActions.isSome || ch.combat.isSome ||
  ch.newEnemies.isSome || ch.currentLocationId.isSome ||
  ch.locationChange.isSome || ch.levelUp.isSome || ch.newSkills.isSome

/-- The structured AI response consumed by the turn pipeline. -/
structure Response where
  narrative : Option String := Option.none
  stateChanges : Option StateChanges := Option.none
  actionResult : Option PyVal := Option.none
  suggestedActions : Option (List String) := Option.none
  gameOver : Option Bool := Option.none
  gameClear : Option Bool := Option.none
deriving Repr

/-- `Character.apply_state_changes`: folds the effect bundle onto the
character.  The source guards every key with a truthy walrus test, so
a numeric key holding 0 is skipped. -/
def Character.applyStateChanges (c : Character) (ch : StateChanges) : Character :=
  let c := match ch.xpGain with
    | some v => if v = 0 then c else (c.addXp v).1
    | Option.none => c
  let c := match ch.goldChange with
    | some v => if v = 0 then c else { c with gold := c.gold + v }
    | Option.none => c
  let c := match ch.hpChange with
    | some v => if v = 0 then c else if 0 < v then c.healHp v else c.takeDamage (-v)
    | Option.none => c
  let c := match ch.mpChange with
    | some v => if v = 0 then c else if 0 < v then c.recoverMp v else (c.spendMp (-v)).1
    | Option.none => c
  let c := match ch.newItems with
    | some items => items.foldl Character.addItem c
    | Option.none => c
  match ch.questUpdates with
  | some ups =>
      ups.foldl (fun acc kv =>
        if kv.2 = "completed" then acc.completeQuest kv.1
        else if kv.2 = "active" then acc.startQuest kv.1
        else acc) c
  | Option.none => c

/-- One step of the `Character.check_new_skills` loop: learn the skill
at rank 1 when the level requirement is met and it is not yet known. -/
def checkSkillStep (acc : Character × List String) (sk : SkillDef) :
    Character × List String :=
  if sk.level ≤ acc.1.level ∧ (dictGet? acc.1.skills sk.name).isNone then
    ({ acc.1 with skills := dictSet acc.1.skills sk.name 1 },
     acc.2 ++ [sk.name])
  else acc

/-- `Character.check_new_skills`: learn, at rank 1, every class skill
whose level requirement is met and that is not yet known; returns the
learned names in order. -/
def Character.checkNewSkills (c : Character) (w : WorldData) :
    Character × List String :=
  match w.classes.find? (fun cd => cd.name = c.class_) with
  | Option.none => (c, [])
  | some cd => cd.skills.foldl checkSkillStep (c, [])

/-- The `GameSession` model (src/game/models/session.py), restricted to
the state the claims touch.  The dynamic attributes `quests`,
`npc_states` and `triggered_events` that the services create lazily
through `getattr`/`hasattr` with empty defaults are modelled as fields
that start empty. -/
structure GameSession where
  userId : Int
  character : Character
  worldName : String
  currentLocationId : Option String := Option.none
  turnCount : Int := 0
  conversationHistory : List (String × String) := []
  npcStates : List (String × List (String × PyVal)) := []
  inCombat : Bool := false
  currentEnemies : List Enemy := []
  combatTurn : String := "player"
  quests : List (String × String) := []
  triggeredEvents : List String := []
deriving Repr

/-- `GameSession.add_history`: bounded to 20 entries, oldest evicted
first. -/
def GameSession.addHistory (s : GameSession) (role content : String) :
    GameSession :=
  let hist := if 20 ≤ s.conversationHistory.length then
      s.conversationHistory.drop 1
    else s.conversationHistory
  { s with conversationHistory := hist ++ [(role, content)] }

/-- `GameSession.start_combat`. -/
def GameSession.startCombat (s : GameSession) (enemies : List Enemy) :
    GameSession :=
  { s with inCombat := true, currentEnemies := enemies, combatTurn := "player" }

/-- `GameSession.end_combat`. -/
def GameSession.endCombat (s : GameSession) : GameSession :=
  { s with inCombat := false, currentEnemies := [] }

/-- Results of stateful embedded code: an error carries the session
state at the moment of the raise (Python exceptions do not roll back
in-place mutations). -/
abbrev PyResult (α : Type) := Except (PyErr × GameSession) α

/-- Sum of `rewards.get("xp", 0)` over an enemy list. -/
def rewardXpTotal (es : List Enemy) : Int :=
  (es.map (fun e => e.rewards.xp)).sum

/-- Sum of `rewards.get("gold", 0)` over an enemy list. -/
def rewardGoldTotal (es : List Enemy) : Int :=
  (es.map (fun e => e.rewards.gold)).sum

/-- Concatenation of `rewards.get("items")` over an enemy list. -/
def rewardItemsTotal (es : List Enemy) : List String :=
  es.foldl (fun acc e => acc ++ e.rewards.items) []

/-- Enemy instantiation for `combat.status == "start"`: look up each id
and build an `Enemy` from the found templates; unknown ids are
skipped.  Fresh uuid instance ids are modelled as `id#index`. -/
def spawnEnemies (w : WorldData) (ids : List String) : List Enemy :=
  (ids.foldl
    (fun acc eid =>
      match dictGet? w.enemies eid with
      | some t => (acc.1 ++ [Enemy.ofTemplate t (eid ++ "#" ++ toString acc.2)],
                   acc.2 + 1)
      | Option.none => (acc.1, acc.2 + 1))
    (([], 0) : List Enemy × Nat)).1

/-- The `total_xp` part of the `combat.status == "end"` branch of
`GameSession.apply_ai_response`: `add_xp`, the `xp_gain` merge, and the
level-up skill check.  The stage recomputes its total from the
session's enemy list, which no stage of the branch modifies before the
final `end_combat`. -/
def combatEndXpStage (w : WorldData) (s : GameSession) (ch : StateChanges) :
    GameSession × StateChanges :=
  let totalXp := rewardXpTotal s.currentEnemies
  if 0 < totalXp then
    let prevLevel := s.character.level
    let c1 := (s.character.addXp totalXp).1
    let s1 := { s with character := c1 }
    let ch1 := { ch with xpGain := some (ch.xpGain.getD 0 + totalXp) }
    if prevLevel < s1.character.level then
      let cs := s1.character.checkNewSkills w
      let s2 := { s1 with character := cs.1 }
      if cs.2 ≠ [] then
        (s2, { ch1 with newSkills := some (ch1.newSkills.getD [] ++ cs.2) })
      else (s2, ch1)
    else (s1, ch1)
  else (s, ch)

/-- The `total_gold` part of the combat-end branch. -/
def combatEndGoldStage (s : GameSession) (ch : StateChanges) :
    GameSession × StateChanges :=
  let totalGold := rewardGoldTotal s.currentEnemies
  if 0 < totalGold then
    ({ s with character := { s.character with gold := s.character.gold + totalGold } },
     { ch with goldChange := some (ch.goldChange.getD 0 + totalGold) })
  else (s, ch)

/-- The `collected_items` part of the combat-end branch. -/
def combatEndItemsStage (s : GameSession) (ch : StateChanges) :
    GameSession × StateChanges :=
  let collected := rewardItemsTotal s.currentEnemies
  if collected ≠ [] then
    ({ s with character := collected.foldl Character.addItem s.character },
     { ch with newItems := some (ch.newItems.getD [] ++ collected) })
  else (s, ch)

/-- The `combat.status == "end"` branch of
`GameSession.apply_ai_response` (reward aggregation over every enemy
still in `current_enemies`, applied once, then `end_combat`). -/
def applyCombatEnd (w : WorldData) (s : GameSession) (ch : StateChanges) :
    GameSession × StateChanges :=
  let sch := combatEndXpStage w s ch
  let sch2 := combatEndGoldStage sch.1 sch.2
  let sch3 := combatEndItemsStage sch2.1 sch2.2
  (sch3.1.endCombat, sch3.2)

/-- The `enemy_actions` branch of `GameSession.apply_ai_response`:
deterministic damage `max 1 (attack_power - defense)` per attack by a
recognized enemy, totalled into `hp_change`. -/
def applyEnemyActions (s : GameSession) (ch : StateChanges)
    (acts : List EnemyAction) : GameSession × StateChanges :=
  let st := acts.foldl
    (fun (acc : GameSession × Int) a =>
      match acc.1.currentEnemies.find?
          (fun e => a.enemyId == some e.instanceId || a.enemyId == some e.enemyId) with
      | some enemy =>
          if a.type == some "attack" then
            let damage := max 1 (enemy.attackPower - acc.1.character.defense)
            ({ acc.1 with character := acc.1.character.takeDamage damage },
             acc.2 + damage)
          else acc
      | Option.none => acc)
    (s, 0)
  if 0 < st.2 then
    (st.1, { ch with hpChange := some (ch.hpChange.getD 0 - st.2) })
  else (st.1, ch)

/-- The `npc_updates` branch of `GameSession.apply_ai_response`
(lines expecting a dict npc_id to updates-dict; `.items()` on a
non-dict raises `AttributeError`; merging a non-dict update value is
modelled as `TypeError`). -/
def sessionNpcUpdates (s : GameSession) (v : PyVal) : PyResult GameSession :=
  match v with
  | .dict kvs =>
      kvs.foldlM
        (fun acc kv => do
          let states :=
            if (dictGet? acc.npcStates kv.1).isNone then
              dictSet acc.npcStates kv.1 []
            else acc.npcStates
          match kv.2 with
          | .dict ukvs =>
              let merged := ukvs.foldl (fun m p => dictSet m p.1 p.2)
                (dictGetD states kv.1 [])
              pure { acc with npcStates := dictSet states kv.1 merged }
          | _ => throw ((.typeError, acc) : PyErr × GameSession))
        s
  | _ => .error (.attributeError, s)

/-- `GameSession.apply_ai_response`: turn counter, bounded history,
character state changes, level-up skill check, location change, enemy
attacks, NPC overlay merge, and combat start/end, in source order. -/
def applyAiResponse (w : WorldData) (s : GameSession) (userInput : String)
    (resp : Response) : PyResult (GameSession × Response) := do
  let s := { s with turnCount := s.turnCount + 1 }
  let s := match resp.narrative with
    | some n =>
        if n = "" then s
        else (s.addHistory "user" userInput).addHistory "assistant" n
    | Option.none => s
  match resp.stateChanges with
  | Option.none => pure (s, resp)
  | some ch =>
      if ch.truthy = false then pure (s, resp)
      else do
        let previousLevel := s.character.level
        let s := { s with character := s.character.applyStateChanges ch }
        let sch : GameSession × StateChanges :=
          if previousLevel < s.character.level then
            let cs := s.character.checkNewSkills w
            let s := { s with character := cs.1 }
            if cs.2 ≠ [] then (s, { ch with newSkills := some cs.2 })
            else (s, ch)
          else (s, ch)
        let s := sch.1
        let ch := sch.2
        let s := match ch.locationChange with
          | some l => if l = "" then s else { s with currentLocationId := some l }
          | Option.none => s
        let sch2 : GameSession × StateChanges :=
          match ch.enemyActions with
          | some acts => if acts.isEmpty then (s, ch)
                         else applyEnemyActions s ch acts
          | Option.none => (s, ch)
        let s := sch2.1
        let ch := sch2.2
        let s ← match ch.npcUpdates with
          | some v => if pyTruthy v then sessionNpcUpdates s v else pure s
          | Option.none => pure s
        let sch3 : GameSession × StateChanges :=
          match ch.combat with
          | some cu =>
              if cu.status == some "start" then
                let spawned := spawnEnemies w cu.enemies
                if spawned ≠ [] then (s.startCombat spawned, ch) else (s, ch)
              else if cu.status == some "end" then
                applyCombatEnd w s ch
              else (s, ch)
          | Option.none => (s, ch)
        pure (sch3.1, { resp with stateChanges := some sch3.2 })

/-- One entry of the `new_enemies` sanitization loop in
`GameService.proceed_game`: a dict carrying an `id` key becomes the id
converted to string, a string is kept, anything else is dropped. -/
def sanitizeEnemyEntry : PyVal → Option PyVal
  | .dict kvs =>
      match dictGet? kvs "id" with
      | some v => some (.str (pyToStr v))
      | Option.none => Option.none
  | .str s => some (.str s)
  | _ => Option.none

/-- The defensive sanitization block of `GameService.proceed_game`:
when `state_changes.new_enemies` is present and is a list, normalize
it to a list of id strings; any other shape is left untouched. -/
def sanitizeResponse (resp : Response) : Response :=
  match resp.stateChanges with
  | some ch =>
      match ch.newEnemies with
      | some (.list xs) =>
          let ch2 := { ch with newEnemies := some (.list (xs.filterMap sanitizeEnemyEntry)) }
          { resp with stateChanges := some ch2 }
      | _ => resp
  | Option.none => resp

/-- Python iteration over a dynamic value (`for update in npc_updates`):
lists yield elements, dicts yield their keys, strings yield their
characters, scalars raise `TypeError`. -/
def pyIter : PyVal → Except PyErr (List PyVal)
  | .list xs => .ok xs
  | .dict kvs => .ok (kvs.map (fun kv => .str kv.1))
  | .str s => .ok (s.toList.map (fun c => .str (String.mk [c])))
  | _ => .error .typeError

/-- The denial note appended when a location transition needs an item
the character lacks. -/
def itemDenialMsg (targetLoc : Location) (reqItem : String) : String :=
  "\n\n(システム: 「" ++ targetLoc.name.getD "None"
    ++ "」に進むには、アイテム「" ++ reqItem ++ "」が必要です。)"

/-- The note appended when a required item with the consume flag is
spent on entry. -/
def consumeNoteMsg (reqItem : String) : String :=
  "\n\n(システム: 「" ++ reqItem ++ "」を消費して扉を開けました。)"

/-- The denial note appended when a location transition needs a quest
status the session lacks. -/
def questDenialMsg : String :=
  "\n\n(システム: この先に進むには、特定のクエストを進行させる必要があります。)"

/-- The session's status for the quest a requirement names
(`getattr(session, "quests", {}).get(quest_id, "inactive")`). -/
def questCurrentStatus (s : GameSession) (q : QuestReq) : String :=
  match q.id with
  | some qid => dictGetD s.quests qid "inactive"
  | Option.none => "inactive"

/-- Python `current_status != req_status` with `req_status` possibly
`None` (a string never equals `None`). -/
def questStatusMismatch (s : GameSession) (q : QuestReq) : Bool :=
  match q.status with
  | some r => questCurrentStatus s q ≠ r
  | Option.none => true

/-- The movement-restriction block of `GameService.proceed_game`
(requirements check on `state_changes.current_location_id`): an unmet
item requirement or — only when no item requirement fires — an unmet
quest requirement cancels the transition and appends a denial note; a
met item requirement with a consume flag removes the item and appends
a consumption note. -/
def locationGate (w : WorldData) (s : GameSession) (resp : Response)
    (ch : StateChanges) : GameSession × Response × StateChanges :=
  match ch.currentLocationId with
  | Option.none => (s, resp, ch)
  | some newLocId =>
      if newLocId = "" then (s, resp, ch)
      else
        match dictGet? w.locations newLocId with
        | Option.none => (s, resp, ch)
        | some targetLoc =>
            match targetLoc.requirements with
            | Option.none => (s, resp, ch)
            | some reqs =>
                let itemReq : Option String := match reqs.item with
                  | some i => if i = "" then Option.none else some i
                  | Option.none => Option.none
                match itemReq with
                | some reqItem =>
                    if reqItem ∉ s.character.inventory then
                      let nar2 := some (resp.narrative.getD "" ++ itemDenialMsg targetLoc reqItem)
                      (s, { resp with narrative := nar2 },
                       { ch with currentLocationId := Option.none })
                    else if reqs.consume then
                      let nar2 := some (resp.narrative.getD "" ++ consumeNoteMsg reqItem)
                      ({ s with character := (s.character.removeItem reqItem).1 },
                       { resp with narrative := nar2 }, ch)
                    else (s, resp, ch)
                | Option.none =>
                    match reqs.quest with
                    | some q =>
                        if q.id.isNone ∧ q.status.isNone then (s, resp, ch)
                        else
                          if questStatusMismatch s q then
                            let nar2 := some (resp.narrative.getD "" ++ questDenialMsg)
                            (s, { resp with narrative := nar2 },
                             { ch with currentLocationId := Option.none })
                          else (s, resp, ch)
                    | Option.none => (s, resp, ch)

/-- `GameService._handle_location_events`: one-shot `on_enter` events
(trap damage injected into `hp_change`, encounter enemies appended to
`new_enemies`), guarded by the per-session triggered set.  Calling
`extend` on a non-list `new_enemies` value raises `AttributeError`. -/
def handleLocationEvents (w : WorldData) (s : GameSession) (resp : Response)
    (ch : StateChanges) (newLocId : String) :
    PyResult (GameSession × Response × StateChanges) :=
  match dictGet? w.locations newLocId with
  | Option.none => .ok (s, resp, ch)
  | some locationData =>
      match locationData.onEnter with
      | Option.none => .ok (s, resp, ch)
      | some event =>
          if event.once && (match event.eventId with
              | some e => decide (e ∈ s.triggeredEvents)
              | Option.none => false) then
            .ok (s, resp, ch)
          else
            let s := match event.eventId with
              | some e =>
                  if e = "" then s
                  else if e ∈ s.triggeredEvents then s
                  else { s with triggeredEvents := s.triggeredEvents ++ [e] }
              | Option.none => s
            let resp := match event.narrative with
              | some n =>
                  if n = "" then resp
                  else
                    let msg := resp.narrative.getD "" ++ "\n\n(イベント: " ++ n ++ ")"
                    { resp with narrative := some msg }
              | Option.none => resp
            if event.type == some "trap" then
              if 0 < event.damage then
                .ok (s, resp, { ch with hpChange := some (ch.hpChange.getD 0 - event.damage) })
              else .ok (s, resp, ch)
            else if event.type == some "encounter" then
              if event.enemies ≠ [] then
                match ch.newEnemies with
                | some (.list xs) =>
                    .ok (s, resp,
                      { ch with newEnemies := some (.list (xs ++ event.enemies.map PyVal.str)) })
                | some _ => .error (.attributeError, s)
                | Option.none =>
                    .ok (s, resp,
                      { ch with newEnemies := some (.list (event.enemies.map PyVal.str)) })
              else .ok (s, resp, ch)
            else .ok (s, resp, ch)

/-- `GameService._check_npc_quest_triggers`: a disposition change can
activate a quest once and append a notification note.  A dict lookup
keyed by an unhashable disposition value raises `TypeError`. -/
def checkNpcQuestTriggers (w : WorldData) (s : GameSession) (npcId : String)
    (newDisposition : PyVal) (resp : Response) : PyResult (GameSession × Response) :=
  match dictGet? w.npcs npcId with
  | Option.none => .ok (s, resp)
  | some npcData =>
      match npcData.questTriggers with
      | Option.none => .ok (s, resp)
      | some triggers =>
          match newDisposition with
          | .list _ => .error (.typeError, s)
          | .dict _ => .error (.typeError, s)
          | .str d =>
              (match dictGet? triggers d with
               | Option.none => .ok (s, resp)
               | some questId =>
                  if questId = "" then .ok (s, resp)
                  else
                    match dictGet? w.quests questId with
                    | Option.none => .ok (s, resp)
                    | some qdata =>
                        if dictGetD s.quests questId "inactive" ≠ "inactive" then
                          .ok (s, resp)
                        else
                          let s := { s with quests := dictSet s.quests questId "active" }
                          let msg := "\n\n(システム: " ++ npcData.name
                            ++ "との絆が深まり、クエスト「" ++ qdata.title.getD questId
                            ++ "」が発生しました！)"
                          .ok (s, { resp with narrative := some (resp.narrative.getD "" ++ msg) }))
          | _ => .ok (s, resp)

/-- The `npc_updates` block of `GameService.proceed_game` (list shape):
non-dict entries are skipped with a warning, entries with a truthy id
are merged into the per-session NPC overlay, and a disposition change
triggers the quest check.  Non-string ids are keyed through their
string rendering. -/
def serviceNpcStage (w : WorldData) (s : GameSession) (resp : Response)
    (ch : StateChanges) : PyResult (GameSession × Response) := do
  match ch.npcUpdates with
  | Option.none => pure (s, resp)
  | some v =>
      if pyTruthy v = false then pure (s, resp)
      else do
        let updates ← match pyIter v with
          | .ok us => pure us
          | .error e => throw ((e, s) : PyErr × GameSession)
        updates.foldlM
          (fun (acc : GameSession × Response) update => do
            match update with
            | .dict kvs =>
                match dictGet? kvs "id" with
                | some idv =>
                    if pyTruthy idv then do
                      let npcId := pyToStr idv
                      let s0 := acc.1
                      let states :=
                        if (dictGet? s0.npcStates npcId).isNone then
                          dictSet s0.npcStates npcId []
                        else s0.npcStates
                      let merged := kvs.foldl
                        (fun m p => if p.1 = "id" then m else dictSet m p.1 p.2)
                        (dictGetD states npcId [])
                      let s1 := { s0 with npcStates := dictSet states npcId merged }
                      match dictGet? kvs "disposition" with
                      | some disp => checkNpcQuestTriggers w s1 npcId disp acc.2
                      | Option.none => pure (s1, acc.2)
                    else pure acc
                | Option.none => pure acc
            | _ => pure acc)
          (s, resp)

/-- `GameService._handle_defeated_enemies`: reward totals across the
disappeared enemy ids, applied to the character, recorded into
`state_changes` and narrated. -/
def handleDefeatedEnemies (w : WorldData) (s : GameSession)
    (defeatedIds : List String) (resp : Response) : GameSession × Response :=
  let tot := defeatedIds.foldl
    (fun (acc : Int × Int × List String) eid =>
      match dictGet? w.enemies eid with
      | some t => (acc.1 + t.rewards.xp, acc.2.1 + t.rewards.gold,
                   acc.2.2 ++ t.rewards.items)
      | Option.none => acc)
    (0, 0, [])
  let totalXp := tot.1
  let totalGold := tot.2.1
  let dropped := tot.2.2
  if 0 < totalXp ∨ 0 < totalGold ∨ dropped ≠ [] then
    let cUp := s.character.addXp totalXp
    let leveledUp := cUp.2
    let c1 := { cUp.1 with gold := cUp.1.gold + totalGold }
    let c1 := dropped.foldl Character.addItem c1
    let s := { s with character := c1 }
    let ch := resp.stateChanges.getD {}
    let ch := { ch with xpGain := some (ch.xpGain.getD 0 + totalXp),
                        goldChange := some (ch.goldChange.getD 0 + totalGold) }
    let ch := if dropped ≠ [] then
        { ch with newItems := some (ch.newItems.getD [] ++ dropped) }
      else ch
    let sch : GameSession × StateChanges :=
      if leveledUp then
        let ch := { ch with levelUp := some s.character.level }
        let cs := s.character.checkNewSkills w
        let s := { s with character := cs.1 }
        if cs.2 ≠ [] then (s, { ch with newSkills := some (ch.newSkills.getD [] ++ cs.2) })
        else (s, ch)
      else (s, ch)
    let s := sch.1
    let ch := sch.2
    let rewardText := "\n\n(システム: 敵を倒した！ 経験値 " ++ toString totalXp
      ++ "、" ++ toString totalGold ++ " G を獲得。"
      ++ (if dropped ≠ [] then " アイテム: " ++ String.intercalate ", " dropped ++ " を入手。" else "")
      ++ (if leveledUp then " **レベルアップ！ Lv." ++ toString s.character.level ++ " になった！**" else "")
      ++ ")"
    (s, { resp with stateChanges := some ch,
                    narrative := some (resp.narrative.getD "" ++ rewardText) })
  else (s, resp)

/-- The quoted-speech rewrite test at the top of `proceed_game`. -/
def startsQuote (input : String) : Bool :=
  input.startsWith "「" || input.startsWith "\"" || input.startsWith "“"

/-- `GameService.proceed_game` from the point where the session is in
hand: combat pre-capture (which evaluates `e.id` on every current
enemy), the AI call (modelled as an oracle whose failure is the
`AIConnectionError` raised by `AIService.generate_response`),
sanitization, the movement gate, location events, NPC updates, state
application, and defeated-enemy rewards. -/
def proceedGame (w : WorldData) (ai : Except Unit Response) (s : GameSession)
    (userInput : String) : PyResult (GameSession × Response) := do
  let wasInCombat := s.inCombat
  let previousEnemyIds ←
    if wasInCombat then
      match pyEnemyIds s.currentEnemies with
      | .ok ids => pure ids
      | .error e => throw ((e, s) : PyErr × GameSession)
    else pure ([] : List String)
  let userInput := if startsQuote userInput then "発言: " ++ userInput else userInput
  let resp ← match ai with
    | .ok r => pure r
    | .error _ => throw ((PyErr.aiConnection, s) : PyErr × GameSession)
  let resp := sanitizeResponse resp
  let sr ← match resp.stateChanges with
    | some ch => do
        let g := locationGate w s resp ch
        let s := g.1
        let resp := g.2.1
        let ch := g.2.2
        let ger ← match ch.currentLocationId with
          | some locId => handleLocationEvents w s resp ch locId
          | Option.none => pure (s, resp, ch)
        let s := ger.1
        let resp := ger.2.1
        let ch := ger.2.2
        let nr ← serviceNpcStage w s resp ch
        pure (nr.1, { nr.2 with stateChanges := some ch })
    | Option.none => pure (s, resp)
  let s := sr.1
  let resp := sr.2
  let ar ← applyAiResponse w s userInput resp
  let s := ar.1
  let resp := ar.2
  if wasInCombat then
    match pyEnemyIds s.currentEnemies with
    | .error e => throw ((e, s) : PyErr × GameSession)
    | .ok currentIds =>
        let defeated := previousEnemyIds.filter (fun i => i ∉ currentIds)
        if defeated ≠ [] then pure (handleDefeatedEnemies w s defeated resp)
        else pure (s, resp)
  else pure (s, resp)

/-- `GameService.use_item`: validation error when the item is not held,
removal of a consumable item, then delegation to `proceed_game`. -/
def useItem (w : WorldData) (ai : Except Unit Response) (s : GameSession)
    (itemName : String) : PyResult (GameSession × Response) := do
  if itemName ∉ s.character.inventory then
    throw ((PyErr.gameError, s) : PyErr × GameSession)
  else
    let s := match dictGet? w.items itemName with
      | some idata =>
          if idata.consumable then
            { s with character := (s.character.removeItem itemName).1 }
          else s
      | Option.none => s
    proceedGame w ai s ("アイテム使用: " ++ itemName)

/-- Outcome of one backend call inside `AIService.generate_response`:
a transport-level exception, a reply that fails `json.loads`, or a
decodable JSON value. -/
inductive BackendResult : Type where
  | transportFailure
  | invalidJson
  | ok (v : PyVal)
deriving Repr

/-- The retry loop of `AIService.generate_response`, by remaining
attempts after the current one (`for attempt in range(retries + 1)`):
a decodable reply returns at once, a transport failure raises
`AIConnectionError` at once, a JSON-decode failure retries until the
attempts run out and then raises `AIConnectionError`.  Returns the
result together with the number of backend calls made. -/
def genRespAux (backend : Nat → BackendResult) (attempt : Nat) :
    Nat → Except PyErr PyVal × Nat
  | 0 =>
      match backend attempt with
      | .ok v => (.ok v, 1)
      | .invalidJson => (.error .aiConnection, 1)
      | .transportFailure => (.error .aiConnection, 1)
  | rem + 1 =>
      match backend attempt with
      | .ok v => (.ok v, 1)
      | .transportFailure => (.error .aiConnection, 1)
      | .invalidJson =>
          let r := genRespAux backend (attempt + 1) rem
          (r.1, r.2 + 1)

/-- `AIService.generate_response` with `retries = 2` (three attempts in
total). -/
def generateResponse (backend : Nat → BackendResult) : Except PyErr PyVal × Nat :=
  genRespAux backend 0 2

/-- One HP/MP mutation call, for stating the clamping invariant. -/
inductive HpMpOp : Type where
  | takeDamage (amount : Int)
  | healHp (amount : Int)
  | spendMp (amount : Int)
  | recoverMp (amount : Int)
deriving Repr, DecidableEq

def HpMpOp.amount : HpMpOp → Int
  | .takeDamage a => a
  | .healHp a => a
  | .spendMp a => a
  | .recoverMp a => a

def applyHpMpOp (c : Character) : HpMpOp → Character
  | .takeDamage a => c.takeDamage a
  | .healHp a => c.healHp a
  | .spendMp a => (c.spendMp a).1
  | .recoverMp a => c.recoverMp a

def applyHpMpOps (c : Character) (ops : List HpMpOp) : Character :=
  ops.foldl applyHpMpOp c

/-- The HP/MP bounds the spec asserts as an invariant. -/
def hpMpBounds (c : Character) : Prop :=
  0 ≤ c.hp ∧ c.hp ≤ c.maxHp ∧ 0 ≤ c.mp ∧ c.mp ≤ c.maxMp

instance (c : Character) : Decidable (hpMpBounds c) := by
  unfold hpMpBounds; infer_instance

/-- One inventory/equipment mutation call, for stating the
disjointness invariant. -/
inductive InvOp : Type where
  | equip (itemName slot : String) (bonuses : List (String × Int))
  | unequip (slot : String)
  | addItem (itemName : String)
  | removeItem (itemName : String)
deriving Repr, DecidableEq

def applyInvOp (c : Character) : InvOp → Character
  | .equip i s b => c.equip i s b
  | .unequip s => (c.unequip s).1
  | .addItem i => c.addItem i
  | .removeItem i => (c.removeItem i).1

def applyInvOps (c : Character) (ops : List InvOp) : Character :=
  ops.foldl applyInvOp c

/-- Names currently held in equipment slots. -/
def equippedNames (c : Character) : List String :=
  c.equipment.map (fun kv => kv.2.name)

/-- The disjointness property of the claim: no name is at once in the
inventory and in an equipment slot. -/
def invDisjoint (c : Character) : Prop :=
  ∀ x ∈ c.inventory, x ∉ equippedNames c

instance (c : Character) : Decidable (invDisjoint c) := by
  unfold invDisjoint; infer_instance

/-- Strengthened well-formedness under which the disjointness is in
fact preserved: no duplicate names in the inventory, no name equipped
in two slots, and disjointness. -/
def invWf (c : Character) : Prop :=
  c.inventory.Nodup ∧ (equippedNames c).Nodup ∧ invDisjoint c

instance (c : Character) : Decidable (invWf c) := by
  unfold invWf; infer_instance

/-- Per-call precondition under which an op preserves `invWf`: `equip`
and `add_item` must not name a currently equipped item. -/
def InvOp.precond (c : Character) : InvOp → Bool
  | .equip i _ _ => decide (i ∉ equippedNames c)
  | .addItem i => decide (i ∉ equippedNames c)
  | .unequip _ => true
  | .removeItem _ => true

/-- All preconditions hold along the execution of the op list. -/
def goodInvOps (c : Character) : List InvOp → Bool
  | [] => true
  | op :: rest => op.precond c && goodInvOps (applyInvOp c op) rest

/-- Shared concrete character fixture. -/
def baseChar : Character :=
  { name := "テスト"
    class_ := "戦士"
    baseStats := [("STR", 12), ("DEX", 10), ("CON", 10), ("INT", 10)]
    skills := []
    level := 1
    xp := 0
    statPoints := 0
    skillPoints := 0
    activeQuests := []
    completedQuests := []
    inventory := []
    gold := 0
    equipment := []
    maxHp := 30
    hp := 30
    maxMp := 30
    mp := 30 }

def cSword : Character := { baseChar with inventory := ["sword"] }

def cPotion : Character := { baseChar with inventory := ["potion"] }

/-- Shared concrete world and session fixtures for the service-level
claims. -/
def goblinTemplate : EnemyTemplate :=
  { id := some "goblin"
    name := some "ゴブリン"
    hp := 8
    stats := [("STR", 12), ("DEX", 11)]
    rewards := { gold := 5, items := ["fang"] } }

def wolfTemplate : EnemyTemplate :=
  { id := some "wolf"
    name := some "狼"
    hp := 6
    stats := [("STR", 11), ("DEX", 13)]
    rewards := { gold := 7 } }

def goblinE : Enemy := Enemy.ofTemplate goblinTemplate "goblin#0"

def wolfE : Enemy := Enemy.ofTemplate wolfTemplate "wolf#0"

def combatSession : GameSession :=
  { userId := 1
    character := baseChar
    worldName := "fantasy_world"
    inCombat := true
    currentEnemies := [goblinE, wolfE] }

def potionWorld : WorldData :=
  { items := [("potion", { consumable := true })] }

def potionSession : GameSession :=
  { userId := 1
    character := cPotion
    worldName := "fantasy_world" }

def rewardWorld : WorldData :=
  { enemies := [("goblin", goblinTemplate), ("wolf", wolfTemplate)] }

def endResp : Response :=
  { stateChanges := some { combat := some { status := some "end" } } }

def exBackend : Nat → BackendResult :=
  fun n => if n = 0 then .invalidJson else .ok (.str "hello")

/-- Concrete mixed-shape `new_enemies` payload for the sanitization
claim: an object entry, a bare string entry, and a malformed entry. -/
def exEnemyEntries : List PyVal :=
  [.dict [("id", .str "goblin_warrior")], .str "wolf", .int 3]

def exSanCh : StateChanges := { newEnemies := some (.list exEnemyEntries) }

def exSanResp : Response := { stateChanges := some exSanCh }

/-- Inventory-level view of folding `add_item` over an item list. -/
def addItemsInv (inv : List String) (items : List String) : List String :=
  items.foldl (fun acc i => if i ∈ acc then acc else acc ++ [i]) inv

/-- Location fixture whose requirements name both an item and a quest
status, exposing the `elif` shadowing in the movement gate. -/
def shadowLoc : Location :=
  { name := some "金庫"
    requirements := some
      { item := some "brass_key"
        quest := some { id := some "q1", status := some "completed" } } }

def shadowWorld : WorldData := { locations := [("vault", shadowLoc)] }

def keySession : GameSession :=
  { userId := 1
    character := { baseChar with inventory := ["brass_key"] }
    worldName := "fantasy_world" }

def keylessSession : GameSession :=
  { userId := 1
    character := baseChar
    worldName := "fantasy_world" }

def vaultResp : Response :=
  { narrative := some "先へ進む。"
    stateChanges := some { currentLocationId := some "vault" } }

/-- Location fixture with a plain missing-item requirement
(spec scenario E). -/
def brassLoc : Location :=
  { name := some "宝物庫"
    requirements := some { item := some "brass_key" } }

def brassWorld : WorldData := { locations := [("vault", brassLoc)] }

/-- Location fixture with a consumable key requirement. -/
def consumeLoc : Location :=
  { name := some "扉"
    requirements := some { item := some "brass_key", consume := true } }

/-- Location fixture with a quest-only requirement. -/
def shrineLoc : Location :=
  { name := some "祠"
    requirements := some
      { quest := some { id := some "q1", status := some "completed" } } }

/-- The `state_changes` record with its `new_enemies` list sanitized;
used to state what `sanitizeResponse` produces. -/
def sanitizedChanges (ch : StateChanges) (xs : List PyVal) : StateChanges :=
  { ch with newEnemies := some (.list (xs.filterMap sanitizeEnemyEntry)) }

/-- Auxiliary: the first-occurrence split behind `dictGet?`, `dictSet`
and `dictPop` when the key is found. -/
theorem dict_split_of_get_some {α : Type} {kvs : List (String × α)} {k : String}
    {v : α} (h : dictGet? kvs k = some v) :
    ∃ l1 l2, kvs = l1 ++ (k, v) :: l2 ∧ (∀ kv ∈ l1, kv.1 ≠ k) ∧
      (∀ w : α, dictSet kvs k w = l1 ++ (k, w) :: l2) ∧
      dictPop kvs k = l1 ++ l2 := by
  induction kvs with
  | nil => simp [dictGet?] at h
  | cons hd tl ih =>
      by_cases hk : hd.1 = k
      · refine ⟨[], tl, ?_, by simp, ?_, ?_⟩
        · simp [dictGet?, hk] at h
          simp [← h, ← hk]
        · intro w
          simp [dictSet, hk]
        · simp [dictPop, hk]
      · simp only [dictGet?, if_neg hk] at h
        obtain ⟨l1, l2, he, hne, hset, hpop⟩ := ih h
        refine ⟨hd :: l1, l2, by simp [he], ?_, ?_, ?_⟩
        · intro kv hkv
          simp only [List.mem_cons] at hkv
          rcases hkv with hkv | hkv
          · simp [hkv, hk]
          · exact hne kv hkv
        · intro w
          simp [dictSet, hk, hset w]
        · simp [dictPop, hk, hpop]

/-- Auxiliary: when the key is absent, `dictSet` appends. -/
theorem dictSet_of_get_none {α : Type} {kvs : List (String × α)} {k : String}
    (h : dictGet? kvs k = Option.none) (w : α) :
    dictSet kvs k w = kvs ++ [(k, w)] := by
  induction kvs with
  | nil => simp [dictSet]
  | cons hd tl ih =>
      by_cases hk : hd.1 = k
      · simp [dictGet?, hk] at h
      · simp only [dictGet?, if_neg hk] at h
        simp [dictSet, hk, ih h]

/-- Auxiliary single-step preservation of `invWf`. -/
theorem invWf_step (c : Character) (op : InvOp) (hwf : invWf c)
    (hpre : op.precond c = true) : invWf (applyInvOp c op) := by
  obtain ⟨hinv, heq, hdisj⟩ := hwf
  cases op with
  | addItem i =>
      simp only [InvOp.precond, decide_eq_true_eq] at hpre
      by_cases hi : i ∈ c.inventory
      · simpa [applyInvOp, Character.addItem, hi] using ⟨hinv, heq, hdisj⟩
      · refine ⟨?_, ?_, ?_⟩
        · simp only [applyInvOp, Character.addItem, if_neg hi]
          exact List.Nodup.append hinv (List.nodup_singleton i) (by
            intro x hx1 hx2
            simp only [List.mem_singleton] at hx2
            subst hx2
            exact hi hx1)
        · simpa [applyInvOp, Character.addItem, hi, equippedNames] using heq
        · intro x hx
          simp only [applyInvOp, Character.addItem, if_neg hi, List.mem_append,
            List.mem_singleton] at hx
          rcases hx with hx | hx
          · simpa [applyInvOp, Character.addItem, hi, equippedNames] using hdisj x hx
          · subst hx
            simpa [applyInvOp, Character.addItem, hi, equippedNames] using hpre
  | removeItem i =>
      by_cases hi : i ∈ c.inventory
      · refine ⟨?_, ?_, ?_⟩
        · simpa [applyInvOp, Character.removeItem, hi] using hinv.erase i
        · simpa [applyInvOp, Character.removeItem, hi, equippedNames] using heq
        · intro x hx
          simp only [applyInvOp, Character.removeItem, if_pos hi] at hx
          have hx2 : x ∈ c.inventory := List.mem_of_mem_erase hx
          simpa [applyInvOp, Character.removeItem, hi, equippedNames] using hdisj x hx2
      · simpa [applyInvOp, Character.removeItem, hi] using ⟨hinv, heq, hdisj⟩
  | unequip slot =>
      rcases hget : dictGet? c.equipment slot with _ | entry
      · simpa [applyInvOp, Character.unequip, hget] using ⟨hinv, heq, hdisj⟩
      · obtain ⟨l1, l2, he, _, _, hpop⟩ := dict_split_of_get_some hget
        have hnames : equippedNames c =
            l1.map (fun kv => kv.2.name) ++ entry.name :: l2.map (fun kv => kv.2.name) := by
          simp [equippedNames, he]
        have heq2 := heq
        rw [hnames] at heq2
        have hmid := (@List.nodup_middle String entry.name
          (l1.map (fun kv => kv.2.name)) (l2.map (fun kv => kv.2.name))).mp heq2
        have hennotin : entry.name ∉
            l1.map (fun kv => kv.2.name) ++ l2.map (fun kv => kv.2.name) :=
          (List.nodup_cons.mp hmid).1
        have hrest : (l1.map (fun kv => kv.2.name) ++ l2.map (fun kv => kv.2.name)).Nodup :=
          (List.nodup_cons.mp hmid).2
        have hen_not_inv : entry.name ∉ c.inventory := by
          intro hmem
          exact hdisj entry.name hmem (by rw [hnames]; simp)
        refine ⟨?_, ?_, ?_⟩
        · simp only [applyInvOp, Character.unequip, hget]
          exact List.Nodup.append hinv (by simp) (by
            intro x hx1 hx2
            simp only [List.mem_singleton] at hx2
            subst hx2
            exact hen_not_inv hx1)
        · simp only [applyInvOp, Character.unequip, hget, equippedNames, hpop]
          simpa using hrest
        · intro x hx
          simp only [applyInvOp, Character.unequip, hget, List.mem_append,
            List.mem_singleton] at hx
          simp only [applyInvOp, Character.unequip, hget, equippedNames, hpop,
            List.map_append, List.mem_append]
          rcases hx with hx | hx
          · have := hdisj x hx
            rw [hnames] at this
            simp only [List.mem_append, List.mem_cons] at this
            push_neg at this
            intro hc2
            rcases hc2 with hc2 | hc2
            · exact this.1 hc2
            · exact this.2.2 hc2
          · subst hx
            intro hc2
            apply hennotin
            simpa using hc2
  | equip i slot b =>
      simp only [InvOp.precond, decide_eq_true_eq] at hpre
      have hinv1 : (if i ∈ c.inventory then c.inventory.erase i else c.inventory)
          = c.inventory.erase i := by
        by_cases hi : i ∈ c.inventory
        · simp [hi]
        · simp [hi, List.erase_of_not_mem hi]
      have hsubinv : c.inventory.erase i ⊆ c.inventory := List.erase_subset i c.inventory
      have hnodup1 : (c.inventory.erase i).Nodup := hinv.erase i
      have hinotmem : i ∉ c.inventory.erase i := hinv.not_mem_erase
      rcases hget : dictGet? c.equipment slot with _ | old
      · -- slot empty: equipment gains a new entry at the end
        have hset := dictSet_of_get_none hget (⟨i, b⟩ : EquipEntry)
        refine ⟨?_, ?_, ?_⟩
        · simp only [applyInvOp, Character.equip, hget, hinv1]
          exact hnodup1
        · simp only [applyInvOp, Character.equip, hget, hinv1, equippedNames, hset]
          simp only [List.map_append]
          exact List.Nodup.append heq (by simp) (by
            intro x hx1 hx2
            simp only [List.map_cons, List.map_nil, List.mem_singleton] at hx2
            subst hx2
            exact hpre hx1)
        · intro x hx
          simp only [applyInvOp, Character.equip, hget, hinv1] at hx
          simp only [applyInvOp, Character.equip, hget, equippedNames, hset,
            List.map_append, List.mem_append]
          have hxmem : x ∈ c.inventory := hsubinv hx
          intro hc2
          rcases hc2 with hc2 | hc2
          · exact hdisj x hxmem hc2
          · simp only [List.map_cons, List.map_nil, List.mem_singleton] at hc2
            subst hc2
            exact hinotmem hx
      · -- slot occupied: the old entry returns to the inventory
        obtain ⟨l1, l2, he, _, hset, _⟩ := dict_split_of_get_some hget
        have hnames : equippedNames c =
            l1.map (fun kv => kv.2.name) ++ old.name :: l2.map (fun kv => kv.2.name) := by
          simp [equippedNames, he]
        have heq2 := heq
        rw [hnames] at heq2
        have hmid := (@List.nodup_middle String old.name
          (l1.map (fun kv => kv.2.name)) (l2.map (fun kv => kv.2.name))).mp heq2
        have holdnotin : old.name ∉
            l1.map (fun kv => kv.2.name) ++ l2.map (fun kv => kv.2.name) :=
          (List.nodup_cons.mp hmid).1
        have hrest : (l1.map (fun kv => kv.2.name) ++ l2.map (fun kv => kv.2.name)).Nodup :=
          (List.nodup_cons.mp hmid).2
        have hold_not_inv : old.name ∉ c.inventory := by
          intro hmem
          exact hdisj old.name hmem (by rw [hnames]; simp)
        have hinotnames : i ∉ equippedNames c := hpre
        have hne_io : i ≠ old.name := by
          intro hcontra
          apply hinotnames
          rw [hnames, hcontra]
          simp
        have hnames2 : equippedNames (applyInvOp c (InvOp.equip i slot b)) =
            l1.map (fun kv => kv.2.name) ++ i :: l2.map (fun kv => kv.2.name) := by
          simp [applyInvOp, Character.equip, hget, equippedNames,
            hset (⟨i, b⟩ : EquipEntry)]
        refine ⟨?_, ?_, ?_⟩
        · simp only [applyInvOp, Character.equip, hget, hinv1]
          exact List.Nodup.append hnodup1 (by simp) (by
            intro x hx1 hx2
            simp only [List.mem_singleton] at hx2
            subst hx2
            exact hold_not_inv (hsubinv hx1))
        · rw [hnames2]
          refine (List.nodup_middle).mpr ?_
          refine List.nodup_cons.mpr ⟨?_, hrest⟩
          intro hc2
          apply hinotnames
          rw [hnames]
          simp only [List.mem_append, List.mem_cons]
          simp only [List.mem_append] at hc2
          tauto
        · intro x hx
          simp only [applyInvOp, Character.equip, hget, hinv1, List.mem_append,
            List.mem_singleton] at hx
          rw [hnames2]
          simp only [List.mem_append, List.mem_cons]
          rcases hx with hx | hx
          · have hxmem : x ∈ c.inventory := hsubinv hx
            have := hdisj x hxmem
            rw [hnames] at this
            simp only [List.mem_append, List.mem_cons] at this
            push_neg at this
            have hxi : x ≠ i := by
              intro hcontra
              subst hcontra
              exact hinotmem hx
            tauto
          · subst hx
            push_neg
            refine ⟨?_, hne_io.symm, ?_⟩
            · intro hc2
              exact holdnotin (by simp [hc2])
            · intro hc2
              exact holdnotin (by simp [hc2])

/-- Auxiliary: `invWf` is preserved along a whole op list whose
preconditions hold. -/
theorem invWf_fold (ops : List InvOp) : ∀ c : Character, invWf c →
    goodInvOps c ops = true → invWf (applyInvOps c ops) := by
  induction ops with
  | nil => intro c h _; simpa [applyInvOps] using h
  | cons op rest ih =>
      intro c h hg
      simp only [goodInvOps, Bool.and_eq_true] at hg
      have hstep := invWf_step c op h hg.1
      simpa [applyInvOps] using ih (applyInvOp c op) hstep hg.2

/-- Auxiliary: prefixes of a good op list are good. -/
theorem goodInvOps_take (ops : List InvOp) : ∀ (c : Character) (i : Nat),
    goodInvOps c ops = true → goodInvOps c (ops.take i) = true := by
  induction ops with
  | nil => intro c i _; simp [goodInvOps]
  | cons op rest ih =>
      intro c i hg
      cases i with
      | zero => simp [goodInvOps]
      | succ n =>
          simp only [goodInvOps, Bool.and_eq_true] at hg
          simp only [List.take_succ_cons, goodInvOps, Bool.and_eq_true]
          exact ⟨hg.1, ih (applyInvOp c op) n hg.2⟩

/-- Auxiliary single-step preservation of the HP/MP bounds for
non-negative call amounts. -/
theorem hpMpBounds_step (c : Character) (op : HpMpOp) (hb : hpMpBounds c)
    (h : 0 ≤ op.amount) : hpMpBounds (applyHpMpOp c op) := by
  obtain ⟨h1, h2, h3, h4⟩ := hb
  cases op with
  | takeDamage a =>
      simp only [HpMpOp.amount] at h
      refine ⟨?_, ?_, h3, h4⟩ <;>
        simp only [applyHpMpOp, Character.takeDamage] <;> omega
  | healHp a =>
      simp only [HpMpOp.amount] at h
      refine ⟨?_, ?_, h3, h4⟩ <;>
        simp only [applyHpMpOp, Character.healHp] <;> omega
  | spendMp a =>
      simp only [HpMpOp.amount] at h
      by_cases hle : a ≤ c.mp
      · refine ⟨?_, ?_, ?_, ?_⟩ <;>
          simp only [applyHpMpOp, Character.spendMp, if_pos hle] <;> omega
      · refine ⟨?_, ?_, ?_, ?_⟩ <;>
          simp only [applyHpMpOp, Character.spendMp, if_neg hle] <;> omega
  | recoverMp a =>
      simp only [HpMpOp.amount] at h
      refine ⟨h1, h2, ?_, ?_⟩ <;>
        simp only [applyHpMpOp, Character.recoverMp] <;> omega

/-- Auxiliary fold version of `hpMpBounds_step`. -/
theorem hpMpBounds_fold (ops : List HpMpOp) : ∀ c : Character, hpMpBounds c →
    (∀ op ∈ ops, 0 ≤ op.amount) → hpMpBounds (applyHpMpOps c ops) := by
  induction ops with
  | nil => intro c h _; simpa [applyHpMpOps] using h
  | cons op rest ih =>
      intro c h hnn
      have hstep := hpMpBounds_step c op h (hnn op (by simp))
      have hrest : ∀ o ∈ rest, 0 ≤ HpMpOp.amount o := fun o ho => hnn o (by simp [ho])
      simpa [applyHpMpOps] using ih (applyHpMpOp c op) hstep hrest

/-- C4 counterexample: at level 1 with xp 0, granting
`2 * xp_to_next_level = 200` in one `add_xp` call yields level 2 (one
level gained, 100 xp left over), not the level 3 the claim asserts. -/
theorem addXp_double_threshold_counterexample :
    baseChar.level = 1 ∧ baseChar.xp = 0 ∧
    (baseChar.addXp 200).1.level = 2 ∧ (baseChar.addXp 200).1.xp = 100 ∧
    ¬ (baseChar.addXp 200).1.level = 1 + 2 := by
  have h : addXpLoop 1 200 0 0 false = (2, 100, 1, 5, true) := by
    rw [addXpLoop]
    norm_num
    rw [addXpLoop]
    norm_num
  refine ⟨rfl, rfl, ?_, ?_, ?_⟩ <;>
    simp [Character.addXp, baseChar, h]

/-- C4 (amended): for every character at level `L ≥ 1` with xp 0,
`add_xp (L * 100)` reaches level `L + 1` with xp 0, one extra stat
point, five extra skill points and result `true`; and
`add_xp (2 * L * 100)` in a single call reaches level `L + 1` with
`L * 100` leftover xp — one level, not two, because the threshold
rises to `(L + 1) * 100` after the first level-up. -/
theorem addXp_level_thresholds (c : Character) (hL : 1 ≤ c.level)
    (hxp : c.xp = 0) :
    ((c.addXp (c.level * 100)).1.level = c.level + 1 ∧
     (c.addXp (c.level * 100)).1.xp = 0 ∧
     (c.addXp (c.level * 100)).1.statPoints = c.statPoints + 1 ∧
     (c.addXp (c.level * 100)).1.skillPoints = c.skillPoints + 5 ∧
     (c.addXp (c.level * 100)).2 = true) ∧
    ((c.addXp (2 * (c.level * 100))).1.level = c.level + 1 ∧
     (c.addXp (2 * (c.level * 100))).1.xp = c.level * 100 ∧
     (c.addXp (2 * (c.level * 100))).2 = true) := by
  have h1 : addXpLoop c.level (c.xp + c.level * 100) c.statPoints c.skillPoints false
      = (c.level + 1, 0, c.statPoints + 1, c.skillPoints + 5, true) := by
    rw [hxp]
    rw [addXpLoop]
    rw [if_pos (by omega)]
    rw [addXpLoop]
    rw [if_neg (by nlinarith)]
    norm_num
  have h2 : addXpLoop c.level (c.xp + 2 * (c.level * 100)) c.statPoints c.skillPoints false
      = (c.level + 1, c.level * 100, c.statPoints + 1, c.skillPoints + 5, true) := by
    rw [hxp]
    rw [addXpLoop]
    rw [if_pos (by nlinarith)]
    rw [addXpLoop]
    rw [if_neg (by nlinarith)]
    have e : 0 + 2 * (c.level * 100) - c.level * 100 = c.level * 100 := by ring
    rw [e]
  constructor
  · simp [Character.addXp, h1]
  · simp [Character.addXp, h2]

/-- Witness for `addXp_level_thresholds` at the concrete level-1
character. -/
theorem addXp_level_thresholds_witness :
    (baseChar.addXp (baseChar.level * 100)).1.level = baseChar.level + 1 ∧
    (baseChar.addXp (2 * (baseChar.level * 100))).1.level = baseChar.level + 1 := by
  have h := addXp_level_thresholds baseChar (by decide) rfl
  exact ⟨h.1.1, h.2.1⟩

/-- C5 counterexample: with hp = max_hp = 30, a single
`heal_hp (-31)` call drives hp to -1, breaking the claimed
`0 ≤ hp ≤ max_hp` invariant for arbitrary integer amounts. -/
theorem hpmp_clamp_counterexample :
    hpMpBounds baseChar ∧
    ¬ hpMpBounds (applyHpMpOps baseChar [HpMpOp.healHp (-31)]) ∧
    (applyHpMpOps baseChar [HpMpOp.healHp (-31)]).hp = -1 := by
  refine ⟨by decide, by decide, by decide⟩

/-- C5 (amended): for every character within bounds and every sequence
of `take_damage` / `heal_hp` / `spend_mp` / `recover_mp` calls with
non-negative amounts, `0 ≤ hp ≤ max_hp` and `0 ≤ mp ≤ max_mp` hold
after every call of the sequence (i.e. after every prefix). -/
theorem hpmp_clamp_nonneg_invariant (c : Character) (ops : List HpMpOp)
    (hb : hpMpBounds c) (hnn : ∀ op ∈ ops, 0 ≤ op.amount) :
    ∀ i : Nat, hpMpBounds (applyHpMpOps c (ops.take i)) := by
  intro i
  refine hpMpBounds_fold (ops.take i) c hb ?_
  intro op hop
  exact hnn op (List.take_subset i ops hop)

/-- Witness for `hpmp_clamp_nonneg_invariant` on a concrete
damage/heal/spend/recover sequence. -/
theorem hpmp_clamp_nonneg_invariant_witness :
    hpMpBounds (applyHpMpOps baseChar
      (([HpMpOp.takeDamage 12, HpMpOp.healHp 100, HpMpOp.spendMp 7,
         HpMpOp.recoverMp 99]).take 4)) := by
  exact hpmp_clamp_nonneg_invariant baseChar
    [HpMpOp.takeDamage 12, HpMpOp.healHp 100, HpMpOp.spendMp 7, HpMpOp.recoverMp 99]
    (by decide) (by decide) 4

/-- C6 counterexample: starting from a disjoint state (inventory
`["sword"]`, empty equipment), equipping `"sword"` twice into the same
slot returns the already-equipped sword to the inventory while it
stays equipped, so the name ends up in both the inventory and an
equipment slot. -/
theorem inventory_equipment_disjoint_counterexample :
    invDisjoint cSword ∧
    ¬ invDisjoint (applyInvOps cSword
        [InvOp.equip "sword" "hand" [], InvOp.equip "sword" "hand" []]) ∧
    (applyInvOps cSword
        [InvOp.equip "sword" "hand" [], InvOp.equip "sword" "hand" []]).inventory
      = ["sword"] ∧
    equippedNames (applyInvOps cSword
        [InvOp.equip "sword" "hand" [], InvOp.equip "sword" "hand" []])
      = ["sword"] := by
  refine ⟨by decide, by decide, by decide, by decide⟩

/-- C6 (amended): if the initial state has a duplicate-free inventory,
duplicate-free equipped names and inventory/equipment disjointness,
and `equip` / `add_item` are never called with a name that is
currently equipped, then after every call of the sequence no item name
appears simultaneously in the inventory and in an equipment slot
(`unequip` and `remove_item` are unrestricted). -/
theorem inventory_equipment_disjoint_invariant (c : Character)
    (ops : List InvOp) (hwf : invWf c) (hgood : goodInvOps c ops = true) :
    ∀ i : Nat, invDisjoint (applyInvOps c (ops.take i)) := by
  intro i
  exact (invWf_fold (ops.take i) c hwf (goodInvOps_take ops c i hgood)).2.2

/-- Witness for `inventory_equipment_disjoint_invariant` on a concrete
equip / add / unequip / remove sequence. -/
theorem inventory_equipment_disjoint_invariant_witness :
    invDisjoint (applyInvOps cSword
      (([InvOp.equip "sword" "hand" [("STR", 2)], InvOp.addItem "potion",
         InvOp.unequip "hand", InvOp.removeItem "potion"]).take 4)) := by
  exact inventory_equipment_disjoint_invariant cSword
    [InvOp.equip "sword" "hand" [("STR", 2)], InvOp.addItem "potion",
     InvOp.unequip "hand", InvOp.removeItem "potion"]
    (by decide) (by decide) 4

/-- C10 counterexample: `add_item` on a name already present leaves the
occurrence count at 1 instead of raising it to 2 — both directly and
through `apply_state_changes.new_items` — so the inventory is a set,
not a multiset. -/
theorem inventory_multiset_counterexample :
    cPotion.inventory.count "potion" = 1 ∧
    (cPotion.addItem "potion").inventory.count "potion" = 1 ∧
    ¬ (cPotion.addItem "potion").inventory.count "potion" = 2 ∧
    (cPotion.applyStateChanges { newItems := some ["potion"] }).inventory.count "potion" = 1 := by
  refine ⟨by decide, by decide, by decide, by decide⟩

/-- C10 (amended): `Character.inventory` has set semantics under
`add_item`: adding a name already present leaves the character
unchanged, and adding an absent name appends exactly one occurrence. -/
theorem addItem_set_semantics (c : Character) (x : String) :
    (x ∈ c.inventory → c.addItem x = c) ∧
    (x ∉ c.inventory → (c.addItem x).inventory = c.inventory ++ [x]) := by
  constructor
  · intro h
    simp [Character.addItem, h]
  · intro h
    simp [Character.addItem, h]

/-- Witness for `addItem_set_semantics` at a concrete character. -/
theorem addItem_set_semantics_witness :
    cPotion.addItem "potion" = cPotion ∧
    (cPotion.addItem "elixir").inventory = cPotion.inventory ++ ["elixir"] := by
  exact ⟨(addItem_set_semantics cPotion "potion").1 (by decide),
         (addItem_set_semantics cPotion "elixir").2 (by decide)⟩

/-- Auxiliary: evaluating the `e.id` comprehension on a non-empty
enemy list raises at the first element. -/
theorem pyEnemyIds_cons (e : Enemy) (es : List Enemy) :
    pyEnemyIds (e :: es) = .error .attributeError := rfl

/-- Auxiliary: every `proceed_game` call on a session in combat with a
non-empty enemy list fails with `AttributeError` at the pre-capture
step, for any AI oracle, with the session unchanged. -/
theorem proceedGame_combat_crash (w : WorldData) (ai : Except Unit Response)
    (s : GameSession) (input : String) (hc : s.inCombat = true)
    (he : s.currentEnemies ≠ []) :
    proceedGame w ai s input = .error (.attributeError, s) := by
  rcases hes : s.currentEnemies with _ | ⟨e, es⟩
  · exact absurd hes he
  · unfold proceedGame
    rw [hc, hes]
    rfl

/-- Auxiliary: when the pre-capture step does not raise, an AI-call
failure surfaces as `AIConnectionError` with the session unchanged. -/
theorem proceedGame_ai_error_of_not_inCombat (w : WorldData) (s : GameSession)
    (input : String) (hc : s.inCombat = false) :
    proceedGame w (.error ()) s input = .error (.aiConnection, s) := by
  unfold proceedGame
  rw [hc]
  rfl

/-- Auxiliary: the same for an in-combat session whose enemy list is
empty (the comprehension evaluates to the empty set). -/
theorem proceedGame_ai_error_of_no_enemies (w : WorldData) (s : GameSession)
    (input : String) (hes : s.currentEnemies = []) :
    proceedGame w (.error ()) s input = .error (.aiConnection, s) := by
  by_cases hc : s.inCombat = true
  · unfold proceedGame
    rw [hc, hes]
    rfl
  · exact proceedGame_ai_error_of_not_inCombat w s input (by simpa using hc)

/-- Auxiliary: whatever the session state, an AI failure (or the
earlier pre-capture crash) leaves the session exactly as it was. -/
theorem proceedGame_ai_error_state (w : WorldData) (s : GameSession)
    (input : String) :
    ∃ e, proceedGame w (.error ()) s input = .error (e, s) := by
  by_cases hc : s.inCombat = true
  · rcases hes : s.currentEnemies with _ | ⟨e, es⟩
    · exact ⟨.aiConnection, proceedGame_ai_error_of_no_enemies w s input hes⟩
    · exact ⟨.attributeError,
        proceedGame_combat_crash w _ s input hc (by simp [hes])⟩
  · exact ⟨.aiConnection,
      proceedGame_ai_error_of_not_inCombat w s input (by simpa using hc)⟩

/-- C2: for every session with `in_combat` true and a non-empty
`current_enemies` list, `proceed_game` raises `AttributeError` while
evaluating the pre-capture comprehension over `e.id` (Enemy defines
only `enemy_id` and `instance_id`), before the AI call — the result is
the same for every AI oracle — and before any state mutation: the
error carries the session unchanged. -/
theorem proceedGame_combat_attribute_error (w : WorldData)
    (ai : Except Unit Response) (s : GameSession) (input : String)
    (hc : s.inCombat = true) (he : s.currentEnemies ≠ []) :
    proceedGame w ai s input = .error (.attributeError, s) :=
  proceedGame_combat_crash w ai s input hc he

/-- Witness for `proceedGame_combat_attribute_error` at a concrete
in-combat session, with a successfully answering AI oracle — the call
still fails before it. -/
theorem proceedGame_combat_attribute_error_witness :
    proceedGame rewardWorld (.ok ({} : Response)) combatSession "攻撃"
      = .error (.attributeError, combatSession) := by
  exact proceedGame_combat_attribute_error rewardWorld (.ok {}) combatSession "攻撃"
    rfl (by decide)

/-- C3 counterexample: `use_item` of a held consumable removes the item
from the inventory before delegating to `proceed_game`; when the AI
call then fails, the error state has the item already consumed, so the
character state is not equal to its state before the call. -/
theorem useItem_ai_failure_counterexample :
    useItem potionWorld (.error ()) potionSession "potion"
      = .error (.aiConnection,
          { potionSession with character := { cPotion with inventory := [] } }) ∧
    ({ cPotion with inventory := ([] : List String) }) ≠ cPotion := by
  constructor
  · rfl
  · decide

/-- C3 (amended): when the AI call fails, `proceed_game` itself has
committed nothing — the error state equals the entry state for every
session; but `use_item` is not atomic: it removes a held consumable
before delegating, and that removal persists in the error state of the
failed call. -/
theorem proceedGame_atomic_on_ai_failure :
    (∀ (w : WorldData) (s : GameSession) (input : String),
       ∃ e, proceedGame w (.error ()) s input = .error (e, s)) ∧
    (∀ (w : WorldData) (s : GameSession) (itemName : String) (idata : ItemData),
       itemName ∈ s.character.inventory →
       dictGet? w.items itemName = some idata →
       idata.consumable = true →
       s.inCombat = false →
       useItem w (.error ()) s itemName =
         .error (.aiConnection,
           { s with character := (s.character.removeItem itemName).1 })) := by
  constructor
  · exact proceedGame_ai_error_state
  · intro w s itemName idata hmem hitems hcons hc
    unfold useItem
    rw [if_neg (by simpa using hmem), hitems]
    simp only [hcons, if_true]
    exact proceedGame_ai_error_of_not_inCombat w _ _ hc

/-- Witness for `proceedGame_atomic_on_ai_failure` at the concrete
potion session. -/
theorem proceedGame_atomic_on_ai_failure_witness :
    useItem potionWorld (.error ()) potionSession "potion" =
      .error (.aiConnection,
        { potionSession with character := (potionSession.character.removeItem "potion").1 }) := by
  exact proceedGame_atomic_on_ai_failure.2 potionWorld potionSession "potion"
    { consumable := true } (by decide) rfl rfl rfl

/-- C9: `AIService.generate_response` makes at most 3 backend attempts;
a transport-level failure raises `AIConnectionError` immediately with
no retry; a JSON-decode failure retries, and after a decode failure on
the third attempt `AIConnectionError` is raised; the first successful
decode is returned as is. -/
theorem generateResponse_retry_policy (backend : Nat → BackendResult) :
    (generateResponse backend).2 ≤ 3 ∧
    (backend 0 = .transportFailure →
      generateResponse backend = (.error .aiConnection, 1)) ∧
    (∀ v, backend 0 = .ok v → generateResponse backend = (.ok v, 1)) ∧
    (backend 0 = .invalidJson → backend 1 = .transportFailure →
      generateResponse backend = (.error .aiConnection, 2)) ∧
    (∀ v, backend 0 = .invalidJson → backend 1 = .ok v →
      generateResponse backend = (.ok v, 2)) ∧
    (backend 0 = .invalidJson → backend 1 = .invalidJson →
      backend 2 = .transportFailure →
      generateResponse backend = (.error .aiConnection, 3)) ∧
    (∀ v, backend 0 = .invalidJson → backend 1 = .invalidJson →
      backend 2 = .ok v → generateResponse backend = (.ok v, 3)) ∧
    (backend 0 = .invalidJson → backend 1 = .invalidJson →
      backend 2 = .invalidJson →
      generateResponse backend = (.error .aiConnection, 3)) := by
  rcases h0 : backend 0 with _ | _ | v0 <;>
    rcases h1 : backend 1 with _ | _ | v1 <;>
      rcases h2 : backend 2 with _ | _ | v2 <;>
        simp [generateResponse, genRespAux, h0, h1, h2]

/-- Witness for `generateResponse_retry_policy`: one decode failure
followed by a successful decode returns the parsed value on the second
attempt. -/
theorem generateResponse_retry_policy_witness :
    generateResponse exBackend = (.ok (.str "hello"), 2) := by
  exact (generateResponse_retry_policy exBackend).2.2.2.2.1 (.str "hello") rfl rfl

/-- C8: when `state_changes.new_enemies` is present as a list, the
sanitization step of `proceed_game` (which runs on the response before
the movement gate and all further processing) replaces each dict entry
carrying an `id` key by that id converted to a string, keeps string
entries, silently drops every other malformed entry, and leaves the
rest of the response untouched — so afterwards every element of
`new_enemies` is a string. -/
theorem sanitize_new_enemies (resp : Response) (ch : StateChanges)
    (xs : List PyVal) (h1 : resp.stateChanges = some ch)
    (h2 : ch.newEnemies = some (.list xs)) :
    (sanitizeResponse resp =
      { resp with stateChanges := some (sanitizedChanges ch xs) }) ∧
    (∀ kvs v, dictGet? kvs "id" = some v →
        sanitizeEnemyEntry (.dict kvs) = some (.str (pyToStr v))) ∧
    (∀ kvs, dictGet? kvs "id" = Option.none →
        sanitizeEnemyEntry (.dict kvs) = Option.none) ∧
    (∀ s0 : String, sanitizeEnemyEntry (.str s0) = some (.str s0)) ∧
    (∀ y ∈ xs.filterMap sanitizeEnemyEntry, ∃ s1 : String, y = .str s1) := by
  refine ⟨?_, ?_, ?_, ?_, ?_⟩
  · simp [sanitizeResponse, sanitizedChanges, h1, h2]
  · intro kvs v hv
    simp [sanitizeEnemyEntry, hv]
  · intro kvs hv
    simp [sanitizeEnemyEntry, hv]
  · intro s0
    rfl
  · intro y hy
    rw [List.mem_filterMap] at hy
    obtain ⟨a, _, ha⟩ := hy
    cases a with
    | str s0 =>
        simp only [sanitizeEnemyEntry, Option.some.injEq] at ha
        exact ⟨s0, ha.symm⟩
    | dict kvs =>
        rcases hid : dictGet? kvs "id" with _ | v
        · simp [sanitizeEnemyEntry, hid] at ha
        · simp only [sanitizeEnemyEntry, hid, Option.some.injEq] at ha
          exact ⟨pyToStr v, ha.symm⟩
    | int n => simp [sanitizeEnemyEntry] at ha
    | bool b => simp [sanitizeEnemyEntry] at ha
    | list l => simp [sanitizeEnemyEntry] at ha
    | none => simp [sanitizeEnemyEntry] at ha

/-- Witness for `sanitize_new_enemies` on the concrete mixed payload:
the object entry becomes its id string, the string stays, the integer
entry is dropped. -/
theorem sanitize_new_enemies_witness :
    sanitizeResponse exSanResp =
      { exSanResp with stateChanges := some (sanitizedChanges exSanCh exEnemyEntries) } ∧
    exEnemyEntries.filterMap sanitizeEnemyEntry
      = [.str "goblin_warrior", .str "wolf"] := by
  refine ⟨(sanitize_new_enemies exSanResp exSanCh exEnemyEntries rfl rfl).1, rfl⟩

/-- Auxiliary: `add_xp` changes only level, xp, stat points and skill
points. -/
theorem addXp_fields (c : Character) (v : Int) :
    (c.addXp v).1.gold = c.gold ∧ (c.addXp v).1.inventory = c.inventory ∧
    (c.addXp v).1.skills = c.skills ∧ (c.addXp v).1.hp = c.hp ∧
    (c.addXp v).1.mp = c.mp := by
  unfold Character.addXp
  rcases h : addXpLoop c.level (c.xp + v) c.statPoints c.skillPoints false
    with ⟨lv, x, sp, kp, up⟩
  simp

/-- Auxiliary: the `check_new_skills` fold changes only the skills
collection. -/
theorem checkSkillsFold_only_skills (l : List SkillDef) :
    ∀ (c : Character) (acc : Character × List String) (sk0 : List (String × Int)),
      acc.1 = { c with skills := sk0 } →
      ∃ sk, (l.foldl checkSkillStep acc).1 = { c with skills := sk } := by
  induction l with
  | nil =>
      intro c acc sk0 h
      exact ⟨sk0, by simpa using h⟩
  | cons skd rest ih =>
      intro c acc sk0 h
      simp only [List.foldl]
      by_cases hc2 : skd.level ≤ acc.1.level ∧ (dictGet? acc.1.skills skd.name).isNone
      · rw [checkSkillStep, if_pos hc2]
        refine ih c _ (dictSet sk0 skd.name 1) ?_
        rw [h]
      · rw [checkSkillStep, if_neg hc2]
        exact ih c acc sk0 h

/-- Auxiliary: `Character.check_new_skills` changes only the skills
collection. -/
theorem checkNewSkills_only_skills (c : Character) (w : WorldData) :
    ∃ sk, (c.checkNewSkills w).1 = { c with skills := sk } := by
  unfold Character.checkNewSkills
  cases w.classes.find? (fun cd => cd.name = c.class_) with
  | none => exact ⟨c.skills, rfl⟩
  | some cd => exact checkSkillsFold_only_skills cd.skills c (c, []) c.skills rfl

/-- Auxiliary: folding `add_item` over an item list only extends the
inventory (set-wise), leaving gold, level and xp alone. -/
theorem foldAddItem_fields (items : List String) : ∀ c : Character,
    (items.foldl Character.addItem c).inventory = addItemsInv c.inventory items ∧
    (items.foldl Character.addItem c).gold = c.gold ∧
    (items.foldl Character.addItem c).level = c.level ∧
    (items.foldl Character.addItem c).xp = c.xp := by
  induction items with
  | nil => intro c; simp [addItemsInv]
  | cons i rest ih =>
      intro c
      have hinv : (c.addItem i).inventory =
          (if i ∈ c.inventory then c.inventory else c.inventory ++ [i]) := by
        by_cases h : i ∈ c.inventory <;> simp [Character.addItem, h]
      have hgold : (c.addItem i).gold = c.gold := by
        by_cases h : i ∈ c.inventory <;> simp [Character.addItem, h]
      have hlevel : (c.addItem i).level = c.level := by
        by_cases h : i ∈ c.inventory <;> simp [Character.addItem, h]
      have hxp : (c.addItem i).xp = c.xp := by
        by_cases h : i ∈ c.inventory <;> simp [Character.addItem, h]
      obtain ⟨h1, h2, h3, h4⟩ := ih (c.addItem i)
      have hstep : addItemsInv c.inventory (i :: rest) =
          addItemsInv (if i ∈ c.inventory then c.inventory else c.inventory ++ [i]) rest := rfl
      refine ⟨?_, ?_, ?_, ?_⟩
      · rw [List.foldl_cons, h1, hinv, hstep]
      · rw [List.foldl_cons, h2, hgold]
      · rw [List.foldl_cons, h3, hlevel]
      · rw [List.foldl_cons, h4, hxp]

/-- Auxiliary: what the xp stage of the combat-end branch does to the
session fields the other stages read. -/
theorem combatEndXpStage_spec (w : WorldData) (s : GameSession) (ch : StateChanges) :
    (combatEndXpStage w s ch).1.currentEnemies = s.currentEnemies ∧
    (combatEndXpStage w s ch).1.inCombat = s.inCombat ∧
    (combatEndXpStage w s ch).1.character.gold = s.character.gold ∧
    (combatEndXpStage w s ch).1.character.inventory = s.character.inventory ∧
    (0 < rewardXpTotal s.currentEnemies →
      ((combatEndXpStage w s ch).1.character.level,
       (combatEndXpStage w s ch).1.character.xp) =
        ((s.character.addXp (rewardXpTotal s.currentEnemies)).1.level,
         (s.character.addXp (rewardXpTotal s.currentEnemies)).1.xp)) ∧
    (rewardXpTotal s.currentEnemies ≤ 0 →
      ((combatEndXpStage w s ch).1.character.level,
       (combatEndXpStage w s ch).1.character.xp) =
        (s.character.level, s.character.xp)) := by
  by_cases hTpos : 0 < rewardXpTotal s.currentEnemies
  · obtain ⟨hg, hi, _, _, _⟩ := addXp_fields s.character (rewardXpTotal s.currentEnemies)
    by_cases hlv : s.character.level <
        (s.character.addXp (rewardXpTotal s.currentEnemies)).1.level
    · obtain ⟨sk, hcs⟩ := checkNewSkills_only_skills
        (s.character.addXp (rewardXpTotal s.currentEnemies)).1 w
      by_cases hne : ((s.character.addXp (rewardXpTotal s.currentEnemies)).1.checkNewSkills w).2 = []
      · refine ⟨?_, ?_, ?_, ?_, fun _ => ?_, fun hle => absurd hTpos (not_lt.mpr hle)⟩ <;>
          simp [combatEndXpStage, hTpos, hlv, hne, hcs, hg, hi]
      · refine ⟨?_, ?_, ?_, ?_, fun _ => ?_, fun hle => absurd hTpos (not_lt.mpr hle)⟩ <;>
          simp [combatEndXpStage, hTpos, hlv, hne, hcs, hg, hi]
    · refine ⟨?_, ?_, ?_, ?_, fun _ => ?_, fun hle => absurd hTpos (not_lt.mpr hle)⟩ <;>
        simp [combatEndXpStage, hTpos, hlv, hg, hi]
  · refine ⟨?_, ?_, ?_, ?_, fun h => absurd h hTpos, fun _ => ?_⟩ <;>
      simp [combatEndXpStage, hTpos]

/-- Auxiliary: what the gold stage of the combat-end branch does. -/
theorem combatEndGoldStage_spec (s : GameSession) (ch : StateChanges) :
    (combatEndGoldStage s ch).1.currentEnemies = s.currentEnemies ∧
    (combatEndGoldStage s ch).1.inCombat = s.inCombat ∧
    (combatEndGoldStage s ch).1.character.gold =
      s.character.gold +
        (if 0 < rewardGoldTotal s.currentEnemies then rewardGoldTotal s.currentEnemies
         else 0) ∧
    (combatEndGoldStage s ch).1.character.inventory = s.character.inventory ∧
    (combatEndGoldStage s ch).1.character.level = s.character.level ∧
    (combatEndGoldStage s ch).1.character.xp = s.character.xp := by
  by_cases hGpos : 0 < rewardGoldTotal s.currentEnemies
  · refine ⟨?_, ?_, ?_, ?_, ?_, ?_⟩ <;> simp [combatEndGoldStage, hGpos]
  · refine ⟨?_, ?_, ?_, ?_, ?_, ?_⟩ <;> simp [combatEndGoldStage, hGpos]

/-- Auxiliary: what the items stage of the combat-end branch does. -/
theorem combatEndItemsStage_spec (s : GameSession) (ch : StateChanges) :
    (combatEndItemsStage s ch).1.currentEnemies = s.currentEnemies ∧
    (combatEndItemsStage s ch).1.inCombat = s.inCombat ∧
    (combatEndItemsStage s ch).1.character.gold = s.character.gold ∧
    (combatEndItemsStage s ch).1.character.inventory =
      addItemsInv s.character.inventory (rewardItemsTotal s.currentEnemies) ∧
    (combatEndItemsStage s ch).1.character.level = s.character.level ∧
    (combatEndItemsStage s ch).1.character.xp = s.character.xp := by
  obtain ⟨h1, h2, h3, h4⟩ :=
    foldAddItem_fields (rewardItemsTotal s.currentEnemies) s.character
  by_cases hIe : rewardItemsTotal s.currentEnemies = []
  · refine ⟨?_, ?_, ?_, ?_, ?_, ?_⟩ <;>
      simp [combatEndItemsStage, hIe, addItemsInv]
  · refine ⟨?_, ?_, ?_, ?_, ?_, ?_⟩ <;>
      simp [combatEndItemsStage, hIe, h1, h2, h3, h4]

/-- Auxiliary: the combat-end branch applies the per-currency reward
totals over the remaining enemy list exactly once, then empties the
list and leaves combat. -/
theorem applyCombatEnd_spec (w : WorldData) (s : GameSession) (ch : StateChanges) :
    (applyCombatEnd w s ch).1.inCombat = false ∧
    (applyCombatEnd w s ch).1.currentEnemies = [] ∧
    (applyCombatEnd w s ch).1.character.gold =
      s.character.gold +
        (if 0 < rewardGoldTotal s.currentEnemies then rewardGoldTotal s.currentEnemies
         else 0) ∧
    (0 < rewardXpTotal s.currentEnemies →
      ((applyCombatEnd w s ch).1.character.level,
       (applyCombatEnd w s ch).1.character.xp) =
        ((s.character.addXp (rewardXpTotal s.currentEnemies)).1.level,
         (s.character.addXp (rewardXpTotal s.currentEnemies)).1.xp)) ∧
    (rewardXpTotal s.currentEnemies ≤ 0 →
      ((applyCombatEnd w s ch).1.character.level,
       (applyCombatEnd w s ch).1.character.xp) =
        (s.character.level, s.character.xp)) ∧
    (applyCombatEnd w s ch).1.character.inventory =
      addItemsInv s.character.inventory (rewardItemsTotal s.currentEnemies) := by
  obtain ⟨a1, _, a3, a4, a5, a6⟩ := combatEndXpStage_spec w s ch
  obtain ⟨b1, _, b3, b4, b5, b6⟩ :=
    combatEndGoldStage_spec (combatEndXpStage w s ch).1 (combatEndXpStage w s ch).2
  obtain ⟨c1, _, c3, c4, c5, c6⟩ :=
    combatEndItemsStage_spec (combatEndGoldStage (combatEndXpStage w s ch).1
      (combatEndXpStage w s ch).2).1
      (combatEndGoldStage (combatEndXpStage w s ch).1 (combatEndXpStage w s ch).2).2
  have hrun : applyCombatEnd w s ch =
      ((combatEndItemsStage (combatEndGoldStage (combatEndXpStage w s ch).1
          (combatEndXpStage w s ch).2).1
          (combatEndGoldStage (combatEndXpStage w s ch).1
            (combatEndXpStage w s ch).2).2).1.endCombat,
       (combatEndItemsStage (combatEndGoldStage (combatEndXpStage w s ch).1
          (combatEndXpStage w s ch).2).1
          (combatEndGoldStage (combatEndXpStage w s ch).1
            (combatEndXpStage w s ch).2).2).2) := rfl
  rw [a1] at b3
  rw [b1, a1] at c4
  rw [hrun]
  simp only [GameSession.endCombat]
  refine ⟨trivial, trivial, ?_, ?_, ?_, ?_⟩
  · rw [c3, b3, a3]
  · intro hT
    have := a5 hT
    rw [c5, c6, b5, b6]
    exact this
  · intro hT
    have := a6 hT
    rw [c5, c6, b5, b6]
    exact this
  · rw [c4, b4, a4]

/-- Auxiliary: on a response whose only state change is
`combat.status = "end"`, `apply_ai_response` runs the combat-end
branch once on the (history-updated) session and succeeds. -/
theorem applyAiResponse_combat_end_run (w : WorldData) (s : GameSession)
    (input : String) (nar : Option String) :
    ∃ pre : GameSession,
      pre.character = s.character ∧ pre.currentEnemies = s.currentEnemies ∧
      applyAiResponse w s input
          { narrative := nar,
            stateChanges := some { combat := some { status := some "end" } } }
        = .ok
            ((applyCombatEnd w pre { combat := some { status := some "end" } }).1,
             { narrative := nar,
               stateChanges :=
                 some (applyCombatEnd w pre { combat := some { status := some "end" } }).2 }) := by
  have happ : ∀ c : Character,
      c.applyStateChanges { combat := some { status := some "end" } } = c :=
    fun _ => rfl
  have hb1 : ((some "end" : Option String) == some "start") = false := rfl
  have hb2 : ((some "end" : Option String) == some "end") = true := rfl
  cases nar with
  | none =>
      refine ⟨{ s with turnCount := s.turnCount + 1 }, rfl, rfl, ?_⟩
      simp only [applyAiResponse, StateChanges.truthy, happ, lt_self_iff_false, hb1, hb2,
        pure_bind, Option.isSome_some, Bool.true_or, Bool.or_true, if_false,
        Bool.true_eq_false, if_true]
      rfl
  | some n =>
      by_cases hn : n = ""
      · refine ⟨{ s with turnCount := s.turnCount + 1 }, rfl, rfl, ?_⟩
        simp only [applyAiResponse, StateChanges.truthy, happ, lt_self_iff_false, hb1,
          hb2, pure_bind, Option.isSome_some, Bool.true_or, Bool.or_true, if_false,
          Bool.true_eq_false, if_true, hn]
        rfl
      · refine ⟨(({ s with turnCount := s.turnCount + 1 }).addHistory "user"
            input).addHistory "assistant" n, rfl, rfl, ?_⟩
        simp only [applyAiResponse, StateChanges.truthy, happ, lt_self_iff_false, hb1,
          hb2, pure_bind, Option.isSome_some, Bool.true_or, Bool.or_true, if_false,
          Bool.true_eq_false, if_true, hn, if_neg]
        rfl

/-- C1 counterexample: in an encounter with a goblin (rewards: 5 gold,
one item) and a wolf (rewards: 7 gold), both at full HP so that no
enemy is defeated, a `combat.status = "end"` state change makes
`apply_ai_response` credit the character with 12 gold and the item —
the rewards of the non-defeated enemies — although the reward total
over the defeated enemies (those at HP 0) is 0.  The amount applied
when the enemy list empties is not the sum over defeated enemies. -/
theorem combat_end_rewards_counterexample :
    (∀ e ∈ combatSession.currentEnemies, 0 < e.hp) ∧
    rewardGoldTotal (combatSession.currentEnemies.filter (fun e => decide (e.hp ≤ 0))) = 0 ∧
    ((applyAiResponse rewardWorld combatSession "攻撃" endResp).toOption.map
      (fun pr => (pr.1.character.gold, pr.1.character.inventory,
                  pr.1.currentEnemies.isEmpty, pr.1.inCombat)))
      = some (12, ["fang"], true, false) ∧
    combatSession.character.gold = 0 ∧
    combatSession.character.inventory = [] := by
  refine ⟨by decide, by decide, by decide, by decide, by decide⟩

/-- C1 (amended): the combat-end branch of `apply_ai_response` sums
rewards per currency (xp, gold) and concatenates items across all
enemies still present in the encounter's enemy list — defeated or not
— and applies them to the character exactly once, at the moment the
list is emptied and combat ends; and the per-kill path of
`proceed_game` (`_handle_defeated_enemies`) never applies rewards
mid-encounter, because every `proceed_game` call during combat with a
non-empty enemy list fails with `AttributeError` before the AI call. -/
theorem combat_end_reward_aggregation :
    (∀ (w : WorldData) (s : GameSession) (input : String) (nar : Option String),
      ∃ s2 resp2,
        applyAiResponse w s input
            { narrative := nar,
              stateChanges := some { combat := some { status := some "end" } } }
          = .ok (s2, resp2) ∧
        s2.inCombat = false ∧
        s2.currentEnemies = [] ∧
        s2.character.gold = s.character.gold +
          (if 0 < rewardGoldTotal s.currentEnemies then rewardGoldTotal s.currentEnemies
           else 0) ∧
        (0 < rewardXpTotal s.currentEnemies →
          (s2.character.level, s2.character.xp) =
            ((s.character.addXp (rewardXpTotal s.currentEnemies)).1.level,
             (s.character.addXp (rewardXpTotal s.currentEnemies)).1.xp)) ∧
        (rewardXpTotal s.currentEnemies ≤ 0 →
          (s2.character.level, s2.character.xp) =
            (s.character.level, s.character.xp)) ∧
        s2.character.inventory =
          addItemsInv s.character.inventory (rewardItemsTotal s.currentEnemies)) ∧
    (∀ (w : WorldData) (ai : Except Unit Response) (s : GameSession) (input : String),
      s.inCombat = true → s.currentEnemies ≠ [] →
      proceedGame w ai s input = .error (.attributeError, s)) := by
  constructor
  · intro w s input nar
    obtain ⟨pre, hchar, hene, hrun⟩ := applyAiResponse_combat_end_run w s input nar
    obtain ⟨e1, e2, e3, e4, e5, e6⟩ :=
      applyCombatEnd_spec w pre { combat := some { status := some "end" } }
    rw [hchar, hene] at e3 e4 e5 e6
    exact ⟨_, _, hrun, e1, e2, e3, e4, e5, e6⟩
  · exact fun w ai s input hc he => proceedGame_combat_crash w ai s input hc he

/-- Witness for `combat_end_reward_aggregation` at the concrete
two-enemy session. -/
theorem combat_end_reward_aggregation_witness :
    (∃ s2 resp2,
      applyAiResponse rewardWorld combatSession "攻撃"
          { narrative := Option.none,
            stateChanges := some { combat := some { status := some "end" } } }
        = .ok (s2, resp2) ∧
      s2.inCombat = false ∧
      s2.currentEnemies = [] ∧
      s2.character.gold = combatSession.character.gold +
        (if 0 < rewardGoldTotal combatSession.currentEnemies then
          rewardGoldTotal combatSession.currentEnemies
         else 0) ∧
      (0 < rewardXpTotal combatSession.currentEnemies →
        (s2.character.level, s2.character.xp) =
          ((combatSession.character.addXp
              (rewardXpTotal combatSession.currentEnemies)).1.level,
           (combatSession.character.addXp
              (rewardXpTotal combatSession.currentEnemies)).1.xp)) ∧
      (rewardXpTotal combatSession.currentEnemies ≤ 0 →
        (s2.character.level, s2.character.xp) =
          (combatSession.character.level, combatSession.character.xp)) ∧
      s2.character.inventory =
        addItemsInv combatSession.character.inventory
          (rewardItemsTotal combatSession.currentEnemies)) ∧
    proceedGame rewardWorld (.ok ({} : Response)) combatSession "様子を見る"
      = .error (.attributeError, combatSession) := by
  exact ⟨combat_end_reward_aggregation.1 rewardWorld combatSession "攻撃" Option.none,
         combat_end_reward_aggregation.2 rewardWorld (.ok {}) combatSession "様子を見る"
           rfl (by decide)⟩

/-- Auxiliary: the movement gate denies a transition whose target
requires an item the character lacks. -/
theorem locationGate_item_denied (w : WorldData) (s : GameSession)
    (resp : Response) (ch : StateChanges) (L : String) (loc : Location)
    (reqs : Requirements) (k : String)
    (hcur : ch.currentLocationId = some L) (hL : L ≠ "")
    (hw : dictGet? w.locations L = some loc) (hreq : loc.requirements = some reqs)
    (hitem : reqs.item = some k) (hk : k ≠ "") (hmem : k ∉ s.character.inventory) :
    locationGate w s resp ch =
      (s,
       { resp with narrative := some (resp.narrative.getD "" ++ itemDenialMsg loc k) },
       { ch with currentLocationId := Option.none }) := by
  simp [locationGate, hcur, hL, hw, hreq, hitem, hk, hmem]

/-- Auxiliary: the movement gate consumes a required item carrying the
consume flag when the character holds it, keeping the transition. -/
theorem locationGate_item_consumed (w : WorldData) (s : GameSession)
    (resp : Response) (ch : StateChanges) (L : String) (loc : Location)
    (reqs : Requirements) (k : String)
    (hcur : ch.currentLocationId = some L) (hL : L ≠ "")
    (hw : dictGet? w.locations L = some loc) (hreq : loc.requirements = some reqs)
    (hitem : reqs.item = some k) (hk : k ≠ "") (hmem : k ∈ s.character.inventory)
    (hcons : reqs.consume = true) :
    locationGate w s resp ch =
      ({ s with character := (s.character.removeItem k).1 },
       { resp with narrative := some (resp.narrative.getD "" ++ consumeNoteMsg k) },
       ch) := by
  simp [locationGate, hcur, hL, hw, hreq, hitem, hk, hmem, hcons]

/-- Auxiliary: the movement gate denies a transition whose target
requires a quest status the session lacks, provided the requirements
name no item. -/
theorem locationGate_quest_denied (w : WorldData) (s : GameSession)
    (resp : Response) (ch : StateChanges) (L : String) (loc : Location)
    (reqs : Requirements) (q : QuestReq)
    (hcur : ch.currentLocationId = some L) (hL : L ≠ "")
    (hw : dictGet? w.locations L = some loc) (hreq : loc.requirements = some reqs)
    (hitem : reqs.item = Option.none) (hq : reqs.quest = some q)
    (htr : q.id.isSome = true ∨ q.status.isSome = true)
    (hmis : questStatusMismatch s q = true) :
    locationGate w s resp ch =
      (s,
       { resp with narrative := some (resp.narrative.getD "" ++ questDenialMsg) },
       { ch with currentLocationId := Option.none }) := by
  have hng : ¬(q.id.isNone = true ∧ q.status.isNone = true) := by
    rintro ⟨h1, h2⟩
    rcases htr with h | h
    · rw [Option.isNone_iff_eq_none] at h1
      rw [h1] at h
      simp at h
    · rw [Option.isNone_iff_eq_none] at h2
      rw [h2] at h
      simp at h
  simp [locationGate, hcur, hL, hw, hreq, hitem, hq, hng, hmis]
  intro h1 h2
  rcases htr with h | h
  · rw [h1] at h
    simp at h
  · rw [h2] at h
    simp at h

/-- Auxiliary: the full `proceed_game` pipeline on a response proposing
only a transition to an item-gated location the character cannot
enter: the transition key is dropped, the denial note is appended, the
other response fields stay empty as sent, and the session keeps its
character and location. -/
theorem proceedGame_item_denied_run (w : WorldData) (s : GameSession)
    (input : String) (nar : Option String) (L : String) (loc : Location)
    (reqs : Requirements) (k : String)
    (hcomb : s.inCombat = false) (hL : L ≠ "")
    (hw : dictGet? w.locations L = some loc) (hreq : loc.requirements = some reqs)
    (hitem : reqs.item = some k) (hk : k ≠ "") (hmem : k ∉ s.character.inventory) :
    ∃ s2 resp2,
      proceedGame w
          (.ok { narrative := nar, stateChanges := some { currentLocationId := some L } })
          s input
        = .ok (s2, resp2) ∧
      s2.character = s.character ∧
      s2.currentLocationId = s.currentLocationId ∧
      s2.inCombat = false ∧
      resp2.narrative = some (nar.getD "" ++ itemDenialMsg loc k) ∧
      resp2.stateChanges = some ({ } : StateChanges) ∧
      resp2.actionResult = Option.none ∧
      resp2.suggestedActions = Option.none ∧
      resp2.gameOver = Option.none ∧
      resp2.gameClear = Option.none := by
  have hg := locationGate_item_denied w s
    { narrative := nar, stateChanges := some { currentLocationId := some L } }
    { currentLocationId := some L } L loc reqs k rfl hL hw hreq hitem hk hmem
  by_cases hns : nar.getD "" ++ itemDenialMsg loc k = ""
  · refine ⟨{ s with turnCount := s.turnCount + 1 },
      { narrative := some (nar.getD "" ++ itemDenialMsg loc k),
        stateChanges := some ({ } : StateChanges) }, ?_, rfl, rfl, hcomb, rfl, rfl,
      rfl, rfl, rfl, rfl⟩
    simp only [proceedGame, hcomb, sanitizeResponse, hg, serviceNpcStage,
      applyAiResponse, StateChanges.truthy, pure_bind, hns, Option.isSome_none,
      Bool.false_or, Bool.or_false, Bool.or_self, if_true, if_false]
    rfl
  · refine ⟨(({ s with turnCount := s.turnCount + 1 }).addHistory "user"
        (if startsQuote input then "発言: " ++ input else input)).addHistory
        "assistant" (nar.getD "" ++ itemDenialMsg loc k),
      { narrative := some (nar.getD "" ++ itemDenialMsg loc k),
        stateChanges := some ({ } : StateChanges) }, ?_, rfl, rfl, hcomb, rfl,
      rfl, rfl, rfl, rfl, rfl⟩
    simp only [proceedGame, hcomb, sanitizeResponse, hg, serviceNpcStage,
      applyAiResponse, StateChanges.truthy, pure_bind, hns, Option.isSome_none,
      Bool.false_or, Bool.or_false, Bool.or_self, if_true, if_false]
    rfl

/-- C7 counterexample: a location whose requirements name both an item
the character holds and a quest whose required status differs is still
entered — the `elif` in the gate never checks the quest when an item
requirement is present.  The transition key survives in
`state_changes` and no denial note is appended, contradicting the
claimed denial for a quest-status mismatch. -/
theorem locationGate_quest_shadowed_counterexample :
    questStatusMismatch keySession { id := some "q1", status := some "completed" } = true ∧
    "brass_key" ∈ keySession.character.inventory ∧
    ((proceedGame shadowWorld (.ok vaultResp) keySession "進む").toOption.map
      (fun pr => ((pr.2.stateChanges.map fun ch => ch.currentLocationId), pr.2.narrative)))
      = some (some (some "vault"), some "先へ進む。") := by
  refine ⟨by decide, by decide, by decide⟩

/-- C7 (amended): in the movement gate of `proceed_game`: (1) if the
target's requirements name an item the character does not hold, the
transition is dropped, a denial note is appended, and every other
field of the response and the session is left intact; (2) if the
character holds the required item and the requirement carries a
consume flag, the item is removed and a consumption note appended,
with the transition kept; (3) a quest requirement whose status differs
is denied the same way, but only when the requirements name no item —
when both are present, the held-item case wins and the quest is never
checked; and (4) end to end, proceed_game on a response proposing only
such an item-gated transition returns with the key removed, the denial
note in the narrative, the remaining response fields as sent, and the
session's character and current location unchanged. -/
theorem proceedGame_location_requirements :
    (∀ (w : WorldData) (s : GameSession) (resp : Response) (ch : StateChanges)
       (L : String) (loc : Location) (reqs : Requirements) (k : String),
      ch.currentLocationId = some L → L ≠ "" →
      dictGet? w.locations L = some loc → loc.requirements = some reqs →
      reqs.item = some k → k ≠ "" → k ∉ s.character.inventory →
      locationGate w s resp ch =
        (s,
         { resp with narrative := some (resp.narrative.getD "" ++ itemDenialMsg loc k) },
         { ch with currentLocationId := Option.none })) ∧
    (∀ (w : WorldData) (s : GameSession) (resp : Response) (ch : StateChanges)
       (L : String) (loc : Location) (reqs : Requirements) (k : String),
      ch.currentLocationId = some L → L ≠ "" →
      dictGet? w.locations L = some loc → loc.requirements = some reqs →
      reqs.item = some k → k ≠ "" → k ∈ s.character.inventory → reqs.consume = true →
      locationGate w s resp ch =
        ({ s with character := (s.character.removeItem k).1 },
         { resp with narrative := some (resp.narrative.getD "" ++ consumeNoteMsg k) },
         ch)) ∧
    (∀ (w : WorldData) (s : GameSession) (resp : Response) (ch : StateChanges)
       (L : String) (loc : Location) (reqs : Requirements) (q : QuestReq),
      ch.currentLocationId = some L → L ≠ "" →
      dictGet? w.locations L = some loc → loc.requirements = some reqs →
      reqs.item = Option.none → reqs.quest = some q →
      (q.id.isSome = true ∨ q.status.isSome = true) →
      questStatusMismatch s q = true →
      locationGate w s resp ch =
        (s,
         { resp with narrative := some (resp.narrative.getD "" ++ questDenialMsg) },
         { ch with currentLocationId := Option.none })) ∧
    (∀ (w : WorldData) (s : GameSession) (input : String) (nar : Option String)
       (L : String) (loc : Location) (reqs : Requirements) (k : String),
      s.inCombat = false → L ≠ "" →
      dictGet? w.locations L = some loc → loc.requirements = some reqs →
      reqs.item = some k → k ≠ "" → k ∉ s.character.inventory →
      ∃ s2 resp2,
        proceedGame w
            (.ok { narrative := nar, stateChanges := some { currentLocationId := some L } })
            s input
          = .ok (s2, resp2) ∧
        s2.character = s.character ∧
        s2.currentLocationId = s.currentLocationId ∧
        s2.inCombat = false ∧
        resp2.narrative = some (nar.getD "" ++ itemDenialMsg loc k) ∧
        resp2.stateChanges = some ({ } : StateChanges) ∧
        resp2.actionResult = Option.none ∧
        resp2.suggestedActions = Option.none ∧
        resp2.gameOver = Option.none ∧
        resp2.gameClear = Option.none) := by
  refine ⟨locationGate_item_denied, locationGate_item_consumed, ?_, ?_⟩
  · intro w s resp ch L loc reqs q h1 h2 h3 h4 h5 h6 h7 h8
    exact locationGate_quest_denied w s resp ch L loc reqs q h1 h2 h3 h4 h5 h6 h7 h8
  · intro w s input nar L loc reqs k h1 h2 h3 h4 h5 h6 h7
    exact proceedGame_item_denied_run w s input nar L loc reqs k h1 h2 h3 h4 h5 h6 h7

/-- Witness for `proceedGame_location_requirements` at concrete
fixtures: the missing-brass-key denial at the gate and end to end
(spec scenario E). -/
theorem proceedGame_location_requirements_witness :
    (locationGate brassWorld keylessSession vaultResp { currentLocationId := some "vault" } =
      (keylessSession,
       { vaultResp with narrative := some (vaultResp.narrative.getD "" ++ itemDenialMsg brassLoc "brass_key") },
       ({ } : StateChanges))) ∧
    (∃ s2 resp2,
      proceedGame brassWorld
          (.ok { narrative := some "先へ進む。",
                 stateChanges := some { currentLocationId := some "vault" } })
          keylessSession "進む"
        = .ok (s2, resp2) ∧
      s2.character = keylessSession.character ∧
      s2.currentLocationId = keylessSession.currentLocationId ∧
      s2.inCombat = false ∧
      resp2.narrative = some ((some "先へ進む。").getD "" ++ itemDenialMsg brassLoc "brass_key") ∧
      resp2.stateChanges = some ({ } : StateChanges) ∧
      resp2.actionResult = Option.none ∧
      resp2.suggestedActions = Option.none ∧
      resp2.gameOver = Option.none ∧
      resp2.gameClear = Option.none) := by
  constructor
  · exact proceedGame_location_requirements.1 brassWorld keylessSession vaultResp
      { currentLocationId := some "vault" } "vault" brassLoc
      { item := some "brass_key" } "brass_key" rfl (by decide) rfl rfl rfl
      (by decide) (by decide)
  · exact proceedGame_location_requirements.2.2.2 brassWorld keylessSession "進む"
      (some "先へ進む。") "vault" brassLoc { item := some "brass_key" } "brass_key"
      rfl (by decide) rfl rfl rfl (by decide) (by decide)

end AiTrpg
